import Mathlib

/-!
Verification of the FlyballETS lights controller (LightsController.h /
LightsController.cpp) against its natural-language specification.

The controller is embedded shallowly:
* machine integers become Nat with explicit reduction (an 8-bit mask is
  kept below 256 by taking `% 256` exactly where the C++ byte narrows;
  the 32-bit Arduino `unsigned long` returned by millis() wraps at
  2^32, modelled by `uadd`);
* the member arrays `_lLightsOnSchedule[7]` / `_lLightsOutSchedule[7]`
  become fourteen Nat fields accessed through the index functions
  `schedOn` / `schedOut` and updated through `setOn` / `setOut`
  (a sentinel value 0 means "unset", as in the source);
* each `for (int i = 0; i < 6; i++)` loop becomes a fold over the
  literal list `[0,1,2,3,4,5]`;
* `millis()` becomes an explicit `now` parameter, read once per tick;
* the two side effects (`shiftOut` of the new mask, and
  `RaceHandler.StartTimers()`) become data returned by `Main`:
  `flushed : Option Nat` and `startTimers : Bool`.
-/

namespace FlyballETS

/-- 32-bit wrap-around addition, as performed on the Arduino target when
computing millis() + offset in an unsigned long. -/
def uadd (a b : Nat) : Nat := (a + b) % 4294967296

/-- enum OverallStates (LightsController.h). -/
inductive OverallStates where
  | STOPPED
  | STARTING
  | STARTED
deriving DecidableEq, Repr, Fintype

/-- enum Lights (LightsController.h): the decimal values of the lights
connected to the 74HC595 shift register. -/
inductive Lights where
  | WHITE
  | RED
  | YELLOW1
  | BLUE
  | YELLOW2
  | GREEN
  | YELLOW3
deriving DecidableEq, Repr, Fintype

/-- The numeric value of each enumerator, exactly as declared in
LightsController.h (WHITE is 130 = QH(128) + QB(2) because of the
wiring workaround recorded in the header comment). -/
def Lights.val : Lights → Nat
  | .WHITE => 130
  | .RED => 64
  | .YELLOW1 => 32
  | .BLUE => 16
  | .YELLOW2 => 8
  | .GREEN => 4
  | .YELLOW3 => 2

/-- enum LightStates (LightsController.h). -/
inductive LightStates where
  | OFF
  | ON
  | TOGGLE
deriving DecidableEq, Repr, Fintype

/-- Modelled from the spec: the external RaceHandler collaborator's race
state (RaceHandler.h is not part of the analysed sources).  The
controller only ever compares it against STARTING, so the model keeps
just that distinction. -/
inductive RaceStates where
  | STARTING
  | NOT_STARTING
deriving DecidableEq, Repr, Fintype

/-- The mutable state of LightsControllerClass.  The two 7-entry
schedule arrays are flattened into named fields on0..on6 / out0..out6;
`byNewLightsState` is the pending mask, `byCurrentLightsState` the mask
last pushed to the shift register. -/
structure LCState where
  byOverallState : OverallStates
  byNewLightsState : Nat
  byCurrentLightsState : Nat
  bStartSequenceStarted : Bool
  on0 : Nat
  on1 : Nat
  on2 : Nat
  on3 : Nat
  on4 : Nat
  on5 : Nat
  on6 : Nat
  out0 : Nat
  out1 : Nat
  out2 : Nat
  out3 : Nat
  out4 : Nat
  out5 : Nat
  out6 : Nat
deriving DecidableEq, Repr

/-- _lLightsOnSchedule[i]. -/
def schedOn (s : LCState) : Nat → Nat
  | 0 => s.on0
  | 1 => s.on1
  | 2 => s.on2
  | 3 => s.on3
  | 4 => s.on4
  | 5 => s.on5
  | 6 => s.on6
  | _ => 0

/-- _lLightsOutSchedule[i]. -/
def schedOut (s : LCState) : Nat → Nat
  | 0 => s.out0
  | 1 => s.out1
  | 2 => s.out2
  | 3 => s.out3
  | 4 => s.out4
  | 5 => s.out5
  | 6 => s.out6
  | _ => 0

/-- _lLightsOnSchedule[i] = v. -/
def setOn (s : LCState) (i v : Nat) : LCState :=
  match i with
  | 0 => { s with on0 := v }
  | 1 => { s with on1 := v }
  | 2 => { s with on2 := v }
  | 3 => { s with on3 := v }
  | 4 => { s with on4 := v }
  | 5 => { s with on5 := v }
  | 6 => { s with on6 := v }
  | _ => s

/-- _lLightsOutSchedule[i] = v. -/
def setOut (s : LCState) (i v : Nat) : LCState :=
  match i with
  | 0 => { s with out0 := v }
  | 1 => { s with out1 := v }
  | 2 => { s with out2 := v }
  | 3 => { s with out3 := v }
  | 4 => { s with out4 := v }
  | 5 => { s with out5 := v }
  | 6 => { s with out6 := v }
  | _ => s

/-- _byLightsArray (LightsController.h): the light driven by each
schedule slot. -/
def lightsAt : Nat → Lights
  | 0 => .WHITE
  | 1 => .RED
  | 2 => .YELLOW1
  | 3 => .BLUE
  | 4 => .YELLOW2
  | 5 => .GREEN
  | _ => .YELLOW3

/-- _byDogErrorLigths (LightsController.h): dog number to fault light. -/
def dogErrorLigths : List Lights := [.RED, .BLUE, .YELLOW2, .GREEN]

/-- LightsControllerClass::CheckLightState: a light reads ON iff all of
its bits are set in the pending mask. -/
def CheckLightState (mask : Nat) (byLight : Lights) : LightStates :=
  if byLight.val &&& mask = byLight.val then .ON else .OFF

/-- LightsControllerClass::ToggleLightState on the pending mask.  TOGGLE
is first resolved against the current reading; if the resolved state
differs from the current one the light's numeric value is added to or
subtracted from the byte-sized mask (the source uses + and -, not
bitwise OR and AND-NOT), with byte narrowing modelled by % 256. -/
def ToggleLightState (mask : Nat) (byLight : Lights) (byLightState : LightStates) : Nat :=
  let byCurrentLightState := CheckLightState mask byLight
  let resolved :=
    if byLightState = .TOGGLE then
      if byCurrentLightState = .ON then LightStates.OFF else LightStates.ON
    else byLightState
  if byCurrentLightState ≠ resolved then
    if resolved = .ON then (mask + byLight.val) % 256
    else (mask + 256 - byLight.val) % 256
  else mask

/-- The global object LightsController has static storage duration, so
members without initializers (the schedule arrays) are zero-initialized;
_byCurrentLightsState is declared as byte = 256, which narrows to 0. -/
def initState : LCState :=
  { byOverallState := .STOPPED
    byNewLightsState := 0
    byCurrentLightsState := 256 % 256
    bStartSequenceStarted := false
    on0 := 0, on1 := 0, on2 := 0, on3 := 0, on4 := 0, on5 := 0, on6 := 0
    out0 := 0, out1 := 0, out2 := 0, out3 := 0, out4 := 0, out5 := 0, out6 := 0 }

/-- LightsControllerClass::InitiateStartSequence. -/
def InitiateStartSequence (s : LCState) : LCState :=
  { s with byOverallState := .STARTING }

/-- The bStartSequenceBusy loop of HandleStartSequence: slots 0..5 are
scanned for any nonzero on/off timestamp. -/
def startSequenceBusy (s : LCState) : Bool :=
  [0, 1, 2, 3, 4, 5].any fun i =>
    decide (schedOn s i > 0 ∨ schedOut s i > 0)

/-- LightsControllerClass::HandleStartSequence, returning the updated
state together with whether RaceHandler.StartTimers() was invoked this
call.  When the class is STARTING and the sequence is not yet armed it
writes the YELLOW3/YELLOW1/YELLOW2/GREEN schedule (slots 6, 2, 4, 5);
StartTimers fires when GREEN reads ON and the external race state is
STARTING; when the slot-0..5 busy scan is clear the state advances to
STARTED. -/
def HandleStartSequence (s : LCState) (now : Nat) (raceState : RaceStates) :
    LCState × Bool :=
  if s.byOverallState = .STARTING then
    let s :=
      if !s.bStartSequenceStarted then
        let s := setOut (setOn s 6 now) 6 (uadd now 1000)
        let s := setOut (setOn s 2 (uadd now 1000)) 2 (uadd now 2000)
        let s := setOut (setOn s 4 (uadd now 2000)) 4 (uadd now 3000)
        let s := setOut (setOn s 5 (uadd now 3000)) 5 (uadd now 4000)
        { s with bStartSequenceStarted := true }
      else s
    let bStartSequenceBusy := startSequenceBusy s
    let bStartTimers :=
      decide (CheckLightState s.byNewLightsState .GREEN = .ON
        ∧ raceState = .STARTING)
    let s :=
      if !bStartSequenceBusy then
        { s with bStartSequenceStarted := false, byOverallState := .STARTED }
      else s
    (s, bStartTimers)
  else (s, false)

/-- First half of a drain-loop iteration for slot i: fire the
on-action if its timestamp is nonzero and strictly in the past,
clearing it as it fires. -/
def drainSlotOn (s : LCState) (now : Nat) (i : Nat) : LCState :=
  if now > schedOn s i ∧ schedOn s i ≠ 0 then
    setOn { s with byNewLightsState :=
      ToggleLightState s.byNewLightsState (lightsAt i) .ON } i 0
  else s

/-- Second half of a drain-loop iteration for slot i: fire the
off-action likewise. -/
def drainSlotOff (s : LCState) (now : Nat) (i : Nat) : LCState :=
  if now > schedOut s i ∧ schedOut s i ≠ 0 then
    setOut { s with byNewLightsState :=
      ToggleLightState s.byNewLightsState (lightsAt i) .OFF } i 0
  else s

/-- One iteration of the schedule-drain loop in Main for slot i: the
on-check, then the off-check on the updated state. -/
def drainSlot (s : LCState) (now : Nat) (i : Nat) : LCState :=
  drainSlotOff (drainSlotOn s now i) now i

/-- The schedule-drain loop of Main: for (int i = 0; i < 6; i++). -/
def drain (s : LCState) (now : Nat) : LCState :=
  [0, 1, 2, 3, 4, 5].foldl (fun t i => drainSlot t now i) s

/-- The result of one call to Main: the new state, whether
RaceHandler.StartTimers() was invoked, and the mask handed to the
shift register when the output flush fired (none when it did not). -/
structure TickResult where
  state : LCState
  startTimers : Bool
  flushed : Option Nat
deriving DecidableEq, Repr

/-- LightsControllerClass::Main, one tick: HandleStartSequence, then the
schedule drain, then the output flush (shiftOut of the new mask exactly
when it differs from the current one). -/
def Main (s : LCState) (now : Nat) (raceState : RaceStates) : TickResult :=
  let hs := HandleStartSequence s now raceState
  let s2 := drain hs.1 now
  if s2.byCurrentLightsState ≠ s2.byNewLightsState then
    { state := { s2 with byCurrentLightsState := s2.byNewLightsState }
      startTimers := hs.2
      flushed := some s2.byNewLightsState }
  else
    { state := s2, startTimers := hs.2, flushed := none }

/-- LightsControllerClass::DeleteSchedules: for (int i = 0; i < 6; i++)
clear both timestamps of slot i. -/
def DeleteSchedules (s : LCState) : LCState :=
  [0, 1, 2, 3, 4, 5].foldl (fun t i => setOut (setOn t i 0) i 0) s

/-- LightsControllerClass::ResetLights: STOPPED, pending mask zeroed,
schedules deleted. -/
def ResetLights (s : LCState) : LCState :=
  DeleteSchedules { s with byOverallState := .STOPPED, byNewLightsState := 0 }

/-- LightsControllerClass::ToggleFaultLight: look up the dog's fault
light; on ON additionally (re)arm slot 0 to flash WHITE from now for
1000 ms; then toggle the fault light itself directly on the pending
mask. -/
def ToggleFaultLight (s : LCState) (dogNumber : Nat) (byLightState : LightStates)
    (now : Nat) : LCState :=
  let byLight := dogErrorLigths.getD dogNumber .RED
  let s :=
    if byLightState = .ON then
      setOut (setOn s 0 now) 0 (uadd now 1000)
    else s
  { s with byNewLightsState := ToggleLightState s.byNewLightsState byLight byLightState }

/-!  Run harness for the start-sequence scenario of the spec: call
InitiateStartSequence at T0, then tick at T0, T0+1000, T0+2000,
T0+3000, T0+4000, and twice more past T0+4000 (T0+4001, T0+4002),
with the external race state held at STARTING throughout. -/

/-- The tick times of the start-sequence scenario. -/
def seqTimes (T0 : Nat) : Nat → Nat
  | 1 => T0
  | 2 => T0 + 1000
  | 3 => T0 + 2000
  | 4 => T0 + 3000
  | 5 => T0 + 4000
  | 6 => T0 + 4001
  | _ => T0 + 4002

/-- The controller state after the k-th tick of the start-sequence
scenario (k = 0 is the state right after InitiateStartSequence). -/
def seqState (T0 : Nat) : Nat → LCState
  | 0 => InitiateStartSequence initState
  | n + 1 => (Main (seqState T0 n) (seqTimes T0 (n + 1)) .STARTING).state

/-- Expected state after the arming tick at T0 (ticks 1 and 2 of the
scenario coincide: nothing fires at the exact tick T0+1000 because the
drain uses strictly-greater comparisons). -/
def seqS1 (T0 : Nat) : LCState :=
  { byOverallState := .STARTING
    byNewLightsState := 0
    byCurrentLightsState := 0
    bStartSequenceStarted := true
    on0 := 0, on1 := 0, on2 := T0 + 1000, on3 := 0
    on4 := T0 + 2000, on5 := T0 + 3000, on6 := T0
    out0 := 0, out1 := 0, out2 := T0 + 2000, out3 := 0
    out4 := T0 + 3000, out5 := T0 + 4000, out6 := T0 + 1000 }

/-- Expected state after the tick at T0+2000: YELLOW1 on. -/
def seqS3 (T0 : Nat) : LCState :=
  { seqS1 T0 with byNewLightsState := 32, byCurrentLightsState := 32, on2 := 0 }

/-- Expected state after the tick at T0+3000: YELLOW1 off, YELLOW2 on. -/
def seqS4 (T0 : Nat) : LCState :=
  { seqS3 T0 with byNewLightsState := 8, byCurrentLightsState := 8, out2 := 0, on4 := 0 }

/-- Expected state after the tick at T0+4000: YELLOW2 off, GREEN on. -/
def seqS5 (T0 : Nat) : LCState :=
  { seqS4 T0 with byNewLightsState := 4, byCurrentLightsState := 4, out4 := 0, on5 := 0 }

/-- Expected state after the tick at T0+4001: GREEN off, slots 0..5 all
clear, still STARTING (the busy scan ran before the drain cleared
out5). -/
def seqS6 (T0 : Nat) : LCState :=
  { seqS5 T0 with byNewLightsState := 0, byCurrentLightsState := 0, out5 := 0 }

/-- Expected state after the tick at T0+4002: the busy scan of slots
0..5 is finally clear at tick start, so the state advances to STARTED;
slot 6 is still armed. -/
def seqS7 (T0 : Nat) : LCState :=
  { seqS6 T0 with byOverallState := .STARTED, bStartSequenceStarted := false }

/-!  Run harness for the fault-light scenario of the spec: a fault for
dog i at time T, the same fault re-raised at T+500, ticks at T+501,
T+1500 and T+1501, then the fault cleared at T+1600. -/

/-- State after ToggleFaultLight(i, ON) at time T from the fresh state. -/
def faultA (i T : Nat) : LCState := ToggleFaultLight initState i .ON T

/-- State after the second ToggleFaultLight(i, ON) at time T+500. -/
def faultB (i T : Nat) : LCState := ToggleFaultLight (faultA i T) i .ON (T + 500)

/-- State after the tick at T+501 (the WHITE on-action fires). -/
def faultC (i T : Nat) : LCState := (Main (faultB i T) (T + 501) .NOT_STARTING).state

/-- State after the tick at T+1500 (nothing fires: strict comparison). -/
def faultD (i T : Nat) : LCState := (Main (faultC i T) (T + 1500) .NOT_STARTING).state

/-- State after the tick at T+1501 (the WHITE off-action fires). -/
def faultE (i T : Nat) : LCState := (Main (faultD i T) (T + 1501) .NOT_STARTING).state

/-- State after ToggleFaultLight(i, OFF) at time T+1600. -/
def faultF (i T : Nat) : LCState := ToggleFaultLight (faultE i T) i .OFF (T + 1600)

/-!  The properties the claims are settled against, stated over the
embedded operations. -/

/-- C1, amended: in the start-sequence scenario the arming tick writes
the stage-1 (YELLOW3) schedule into slot 6 but the drain loop never
visits that slot, so the stage-1 light never turns on; because every
schedule comparison is strictly-greater, each light turns on one
scheduled boundary late when ticking at the exact times (YELLOW1 shows
from the T0+2000 tick, YELLOW2 from T0+3000, GREEN from T0+4000);
OverallState becomes STARTED only on the second tick past T0+4000 —
the first tick at whose start slots 0..5 are all clear — while slot 6
stays armed even then. -/
abbrev C1Prop (T0 : Nat) : Prop :=
  schedOn (seqState T0 1) 6 = T0 ∧
  schedOut (seqState T0 1) 6 = T0 + 1000 ∧
  CheckLightState (seqState T0 1).byNewLightsState .YELLOW3 = .OFF ∧
  CheckLightState (seqState T0 3).byNewLightsState .YELLOW3 = .OFF ∧
  CheckLightState (seqState T0 5).byNewLightsState .YELLOW3 = .OFF ∧
  (seqState T0 1).byNewLightsState = 0 ∧
  (seqState T0 2).byNewLightsState = 0 ∧
  (seqState T0 3).byNewLightsState = Lights.val .YELLOW1 ∧
  (seqState T0 4).byNewLightsState = Lights.val .YELLOW2 ∧
  (seqState T0 5).byNewLightsState = Lights.val .GREEN ∧
  (seqState T0 6).byNewLightsState = 0 ∧
  (seqState T0 1).byOverallState = .STARTING ∧
  (seqState T0 2).byOverallState = .STARTING ∧
  (seqState T0 3).byOverallState = .STARTING ∧
  (seqState T0 4).byOverallState = .STARTING ∧
  (seqState T0 5).byOverallState = .STARTING ∧
  (seqState T0 6).byOverallState = .STARTING ∧
  (seqState T0 7).byOverallState = .STARTED ∧
  schedOn (seqState T0 6) 2 = 0 ∧
  schedOut (seqState T0 6) 5 = 0 ∧
  schedOn (seqState T0 7) 6 = T0 ∧
  schedOut (seqState T0 7) 6 = T0 + 1000

/-- C3, amended: setting a light ON reads back ON and TOGGLE flips the
reading exactly once whenever the mask does not partially overlap the
light's bits (always true for the six single-bit lights; WHITE can be
torn because it shares bit 1 with YELLOW3); setting OFF reads back OFF
unconditionally; a request equal to the current reading leaves the
mask untouched. -/
abbrev C3Prop (mask : Nat) (L : Lights) : Prop :=
  ((mask &&& L.val = 0 ∨ mask &&& L.val = L.val) →
    CheckLightState (ToggleLightState mask L .ON) L = .ON) ∧
  CheckLightState (ToggleLightState mask L .OFF) L = .OFF ∧
  ((mask &&& L.val = 0 ∨ mask &&& L.val = L.val) →
    CheckLightState (ToggleLightState mask L .TOGGLE) L ≠ CheckLightState mask L) ∧
  (CheckLightState mask L = .ON → ToggleLightState mask L .ON = mask) ∧
  (CheckLightState mask L = .OFF → ToggleLightState mask L .OFF = mask)

/-- C4, amended: the per-tick drain acts on slots 0..5 only, fires an
action when its timestamp is nonzero and strictly below the current
time, and clears exactly the fired timestamps; the visit's effect on
the pending mask is exactly the ON toggle of the slot's light when the
on-action fired, followed by the OFF toggle when the off-action fired
(on applied before off); when only the on-action fires and the mask
does not partially overlap the slot's light, the light reads ON
afterwards; a slot scheduled on at t1 and off at t2 with both fired by
a tick strictly past t2 reads OFF afterwards. -/
abbrev C4Prop (s : LCState) (now i : Nat) : Prop :=
  (schedOn (drain s now) i =
    if now > schedOn s i ∧ schedOn s i ≠ 0 then 0 else schedOn s i) ∧
  (schedOut (drain s now) i =
    if now > schedOut s i ∧ schedOut s i ≠ 0 then 0 else schedOut s i) ∧
  ((drainSlot s now i).byNewLightsState =
    if now > schedOut s i ∧ schedOut s i ≠ 0 then
      ToggleLightState
        (if now > schedOn s i ∧ schedOn s i ≠ 0 then
          ToggleLightState s.byNewLightsState (lightsAt i) .ON
        else s.byNewLightsState) (lightsAt i) .OFF
    else
      if now > schedOn s i ∧ schedOn s i ≠ 0 then
        ToggleLightState s.byNewLightsState (lightsAt i) .ON
      else s.byNewLightsState) ∧
  ((∀ j, j < 6 → j ≠ i → schedOn s j = 0 ∧ schedOut s j = 0) →
    s.byNewLightsState < 256 →
    (s.byNewLightsState &&& (lightsAt i).val = 0 ∨
      s.byNewLightsState &&& (lightsAt i).val = (lightsAt i).val) →
    now > schedOn s i → schedOn s i ≠ 0 →
    ¬ (now > schedOut s i ∧ schedOut s i ≠ 0) →
    CheckLightState (drain s now).byNewLightsState (lightsAt i) = .ON) ∧
  ((∀ j, j < 6 → j ≠ i → schedOn s j = 0 ∧ schedOut s j = 0) →
    s.byNewLightsState < 256 →
    now > schedOut s i → schedOut s i ≠ 0 →
    CheckLightState (drain s now).byNewLightsState (lightsAt i) = .OFF)

/-- C6, amended: a fault for dog i at time T lights the mapped light in
the pending mask immediately and (re)arms the WHITE window in slot 0;
re-raising the fault at T+500 rewrites the window to on T+500 / off
T+1500, so WHITE still reads ON at the T+1500 tick and goes OFF on the
first tick strictly past T+1500 (not only after T+2500); clearing the
fault turns only the mapped light off and leaves slot 0 alone. -/
abbrev C6Prop (i T : Nat) : Prop :=
  CheckLightState (faultA i T).byNewLightsState (dogErrorLigths.getD i .RED) = .ON ∧
  schedOn (faultA i T) 0 = T ∧
  schedOut (faultA i T) 0 = T + 1000 ∧
  schedOn (faultB i T) 0 = T + 500 ∧
  schedOut (faultB i T) 0 = T + 1500 ∧
  CheckLightState (faultC i T).byNewLightsState .WHITE = .ON ∧
  CheckLightState (faultD i T).byNewLightsState .WHITE = .ON ∧
  CheckLightState (faultE i T).byNewLightsState .WHITE = .OFF ∧
  CheckLightState (faultE i T).byNewLightsState (dogErrorLigths.getD i .RED) = .ON ∧
  schedOn (faultF i T) 0 = schedOn (faultE i T) 0 ∧
  schedOut (faultF i T) 0 = schedOut (faultE i T) 0 ∧
  CheckLightState (faultF i T).byNewLightsState (dogErrorLigths.getD i .RED) = .OFF

/-- C7, amended: ResetLights stops the state machine, zeroes the
pending mask and clears slots 0..5 of the schedule table (slot 6 is
left untouched), without changing the applied mask or producing
output; the next Main call then drives the applied mask to 0. -/
abbrev C7Prop (s : LCState) (now : Nat) (race : RaceStates) (i : Nat) : Prop :=
  (ResetLights s).byOverallState = .STOPPED ∧
  (ResetLights s).byNewLightsState = 0 ∧
  schedOn (ResetLights s) i = 0 ∧
  schedOut (ResetLights s) i = 0 ∧
  schedOn (ResetLights s) 6 = schedOn s 6 ∧
  schedOut (ResetLights s) 6 = schedOut s 6 ∧
  (ResetLights s).byCurrentLightsState = s.byCurrentLightsState ∧
  (Main (ResetLights s) now race).state.byCurrentLightsState = 0 ∧
  (Main (ResetLights s) now race).state.byNewLightsState = 0

/-- C8: StartTimers is signalled on a tick exactly when, at the start
of that tick, the controller is STARTING, GREEN reads ON in the
pending mask, and the external race state is STARTING; in the
start-sequence scenario it is signalled on the tick at T0+4001 (where
GREEN is ON) and not afterwards, once GREEN has turned back off. -/
abbrev C8Prop (T0 : Nat) : Prop :=
  (∀ s : LCState, ∀ now : Nat, ∀ race : RaceStates,
    ((Main s now race).startTimers = true ↔
      (s.byOverallState = .STARTING ∧
        CheckLightState s.byNewLightsState .GREEN = .ON ∧
        race = .STARTING))) ∧
  (Main (seqState T0 5) (T0 + 4001) .STARTING).startTimers = true ∧
  CheckLightState (seqState T0 5).byNewLightsState .GREEN = .ON ∧
  CheckLightState (seqState T0 6).byNewLightsState .GREEN = .OFF ∧
  (Main (seqState T0 6) (T0 + 4002) .STARTING).startTimers = false

/-- C10: slot 6 of the schedule table is written by the arming step and
by nothing else: the tick (drain, busy scan, flush), ResetLights,
DeleteSchedules and ToggleFaultLight all leave it unchanged, the busy
scan does not read it, and no drained slot maps to YELLOW3. -/
abbrev C10Prop (s : LCState) (now : Nat) (race : RaceStates)
    (d : Nat) (st : LightStates) (i : Nat) : Prop :=
  (¬ (s.byOverallState = .STARTING ∧ s.bStartSequenceStarted = false) →
    schedOn (Main s now race).state 6 = schedOn s 6 ∧
    schedOut (Main s now race).state 6 = schedOut s 6) ∧
  (s.byOverallState = .STARTING ∧ s.bStartSequenceStarted = false →
    schedOn (Main s now race).state 6 = now ∧
    schedOut (Main s now race).state 6 = uadd now 1000) ∧
  schedOn (ResetLights s) 6 = schedOn s 6 ∧
  schedOut (ResetLights s) 6 = schedOut s 6 ∧
  schedOn (DeleteSchedules s) 6 = schedOn s 6 ∧
  schedOut (DeleteSchedules s) 6 = schedOut s 6 ∧
  schedOn (ToggleFaultLight s d st now) 6 = schedOn s 6 ∧
  schedOut (ToggleFaultLight s d st now) 6 = schedOut s 6 ∧
  (∀ v w : Nat, startSequenceBusy { s with on6 := v, out6 := w } = startSequenceBusy s) ∧
  lightsAt i ≠ .YELLOW3

/-!  Projection helpers: the schedule writers touch only their own
slot, and schedule reads are unaffected by updates to the mask fields,
the overall state or the session flag. -/

theorem schedOn_setOut (s : LCState) (j v i : Nat) :
    schedOn (setOut s j v) i = schedOn s i := by
  unfold setOut schedOn
  split <;> (try split) <;> rfl

theorem schedOut_setOn (s : LCState) (j v i : Nat) :
    schedOut (setOn s j v) i = schedOut s i := by
  unfold setOn schedOut
  split <;> (try split) <;> rfl

theorem schedOn_setOn_ne (s : LCState) {j : Nat} (v : Nat) {i : Nat} (h : i ≠ j) :
    schedOn (setOn s j v) i = schedOn s i := by
  unfold setOn schedOn
  split <;> (try split) <;> first | rfl | omega

theorem schedOut_setOut_ne (s : LCState) {j : Nat} (v : Nat) {i : Nat} (h : i ≠ j) :
    schedOut (setOut s j v) i = schedOut s i := by
  unfold setOut schedOut
  split <;> (try split) <;> first | rfl | omega

theorem schedOn_setOn_self (s : LCState) {i : Nat} (v : Nat) (h : i < 7) :
    schedOn (setOn s i v) i = v := by
  interval_cases i <;> rfl

theorem schedOut_setOut_self (s : LCState) {i : Nat} (v : Nat) (h : i < 7) :
    schedOut (setOut s i v) i = v := by
  interval_cases i <;> rfl

theorem schedOn_setCurrent (s : LCState) (X i : Nat) :
    schedOn { s with byCurrentLightsState := X } i = schedOn s i := by
  unfold schedOn
  split <;> rfl

theorem schedOut_setCurrent (s : LCState) (X i : Nat) :
    schedOut { s with byCurrentLightsState := X } i = schedOut s i := by
  unfold schedOut
  split <;> rfl

/-!  Distributing the state projections over if-then-else lets simp
push observations through the branching tick code. -/

theorem schedOn_ite (c : Prop) [Decidable c] (a b : LCState) (i : Nat) :
    schedOn (if c then a else b) i = if c then schedOn a i else schedOn b i :=
  apply_ite (fun t => schedOn t i) c a b

theorem schedOut_ite (c : Prop) [Decidable c] (a b : LCState) (i : Nat) :
    schedOut (if c then a else b) i = if c then schedOut a i else schedOut b i :=
  apply_ite (fun t => schedOut t i) c a b

theorem mask_ite (c : Prop) [Decidable c] (a b : LCState) :
    (if c then a else b).byNewLightsState =
      if c then a.byNewLightsState else b.byNewLightsState :=
  apply_ite (fun t => t.byNewLightsState) c a b

theorem cur_ite (c : Prop) [Decidable c] (a b : LCState) :
    (if c then a else b).byCurrentLightsState =
      if c then a.byCurrentLightsState else b.byCurrentLightsState :=
  apply_ite (fun t => t.byCurrentLightsState) c a b

theorem overall_ite (c : Prop) [Decidable c] (a b : LCState) :
    (if c then a else b).byOverallState =
      if c then a.byOverallState else b.byOverallState :=
  apply_ite (fun t => t.byOverallState) c a b

/-- The drain loop, unfolded: six sequential slot visits. -/
theorem drain_eq (s : LCState) (now : Nat) :
    drain s now =
      drainSlot (drainSlot (drainSlot (drainSlot (drainSlot
        (drainSlot s now 0) now 1) now 2) now 3) now 4) now 5 := rfl

/-- One Main call reports StartTimers exactly as HandleStartSequence
computed it. -/
theorem Main_startTimers (s : LCState) (now : Nat) (race : RaceStates) :
    (Main s now race).startTimers = (HandleStartSequence s now race).2 := by
  simp only [Main]
  split <;> rfl

/-- The output flush at the end of Main does not touch the schedule
table. -/
theorem Main_state_schedOn (s : LCState) (now : Nat) (race : RaceStates) (i : Nat) :
    schedOn (Main s now race).state i =
      schedOn (drain (HandleStartSequence s now race).1 now) i := by
  simp only [Main]
  split
  · exact schedOn_setCurrent ..
  · rfl

theorem Main_state_schedOut (s : LCState) (now : Nat) (race : RaceStates) (i : Nat) :
    schedOut (Main s now race).state i =
      schedOut (drain (HandleStartSequence s now race).1 now) i := by
  simp only [Main]
  split
  · exact schedOut_setCurrent ..
  · rfl

/-!  Byte-mask facts, established by exhaustive evaluation over all
byte values.  The second and third record why the drain loop is
well-behaved even though ToggleLightState uses numeric + and -:
turning a light OFF always reads back OFF, and toggling one of the
slot-0..5 lights never disturbs the reading of a different slot's
light, because those six lights occupy pairwise disjoint bits. -/

set_option maxRecDepth 4000 in
theorem toggle_lt_256 :
    ∀ m, m < 256 → ∀ L : Lights, ∀ st : LightStates,
      ToggleLightState m L st < 256 := by decide

set_option maxRecDepth 4000 in
theorem toggleOff_check :
    ∀ m, m < 256 → ∀ L : Lights,
      CheckLightState (ToggleLightState m L .OFF) L = .OFF := by decide

set_option maxRecDepth 4000 in
theorem toggleOn_check :
    ∀ m, m < 256 → ∀ L : Lights,
      (m &&& L.val = 0 ∨ m &&& L.val = L.val) →
      CheckLightState (ToggleLightState m L .ON) L = .ON := by decide

/-- A slot whose timestamps are not due (or are unset) is left alone by
the drain visit. -/
theorem drainSlot_skip (s : LCState) (now i : Nat)
    (h1 : ¬ (now > schedOn s i) ∨ schedOn s i = 0)
    (h2 : ¬ (now > schedOut s i) ∨ schedOut s i = 0) :
    drainSlot s now i = s := by
  unfold drainSlot drainSlotOn drainSlotOff
  have c1 : ¬ (now > schedOn s i ∧ schedOn s i ≠ 0) := by tauto
  rw [if_neg c1]
  have c2 : ¬ (now > schedOut s i ∧ schedOut s i ≠ 0) := by tauto
  rw [if_neg c2]

/-- Outside the STARTING state, HandleStartSequence does nothing. -/
theorem handle_skip (s : LCState) (now : Nat) (race : RaceStates)
    (h : s.byOverallState ≠ .STARTING) :
    HandleStartSequence s now race = (s, false) := by
  unfold HandleStartSequence
  rw [if_neg h]

theorem cur_setOn (s : LCState) (i v : Nat) :
    (setOn s i v).byCurrentLightsState = s.byCurrentLightsState := by
  unfold setOn
  split <;> rfl

theorem cur_setOut (s : LCState) (i v : Nat) :
    (setOut s i v).byCurrentLightsState = s.byCurrentLightsState := by
  unfold setOut
  split <;> rfl

theorem mask_setOn (s : LCState) (i v : Nat) :
    (setOn s i v).byNewLightsState = s.byNewLightsState := by
  unfold setOn
  split <;> rfl

theorem mask_setOut (s : LCState) (i v : Nat) :
    (setOut s i v).byNewLightsState = s.byNewLightsState := by
  unfold setOut
  split <;> rfl

theorem schedOn_setMask (s : LCState) (X : Nat) (i : Nat) :
    schedOn { s with byNewLightsState := X } i = schedOn s i := by
  unfold schedOn
  split <;> rfl

theorem schedOut_setMask (s : LCState) (X : Nat) (i : Nat) :
    schedOut { s with byNewLightsState := X } i = schedOut s i := by
  unfold schedOut
  split <;> rfl

theorem schedOn_setStarted (s : LCState) (b : Bool) (i : Nat) :
    schedOn { s with bStartSequenceStarted := b } i = schedOn s i := by
  unfold schedOn
  split <;> rfl

theorem schedOut_setStarted (s : LCState) (b : Bool) (i : Nat) :
    schedOut { s with bStartSequenceStarted := b } i = schedOut s i := by
  unfold schedOut
  split <;> rfl

theorem schedOn_setDone (s : LCState) (i : Nat) :
    schedOn { s with bStartSequenceStarted := false, byOverallState := OverallStates.STARTED } i = schedOn s i := by
  unfold schedOn
  split <;> rfl

theorem schedOut_setDone (s : LCState) (i : Nat) :
    schedOut { s with bStartSequenceStarted := false, byOverallState := OverallStates.STARTED } i = schedOut s i := by
  unfold schedOut
  split <;> rfl

/-- HandleStartSequence never touches the applied mask. -/
theorem handle_current (s : LCState) (now : Nat) (race : RaceStates) :
    (HandleStartSequence s now race).1.byCurrentLightsState = s.byCurrentLightsState := by
  unfold HandleStartSequence
  split
  · simp only []
    split <;> split <;> simp [cur_setOn, cur_setOut]
  · rfl

theorem cur_drainSlotOn (s : LCState) (now i : Nat) :
    (drainSlotOn s now i).byCurrentLightsState = s.byCurrentLightsState := by
  unfold drainSlotOn
  split <;> simp [cur_setOn]

theorem cur_drainSlotOff (s : LCState) (now i : Nat) :
    (drainSlotOff s now i).byCurrentLightsState = s.byCurrentLightsState := by
  unfold drainSlotOff
  split <;> simp [cur_setOut]

/-- One drain visit never touches the applied mask. -/
theorem drainSlot_current (s : LCState) (now i : Nat) :
    (drainSlot s now i).byCurrentLightsState = s.byCurrentLightsState := by
  unfold drainSlot
  rw [cur_drainSlotOff, cur_drainSlotOn]

/-- The drain loop never touches the applied mask. -/
theorem drain_current (s : LCState) (now : Nat) :
    (drain s now).byCurrentLightsState = s.byCurrentLightsState := by
  rw [drain_eq, drainSlot_current, drainSlot_current, drainSlot_current,
    drainSlot_current, drainSlot_current, drainSlot_current]

/-!  Per-half schedule bookkeeping: each half touches only its own
array and only its own slot, and never the applied mask. -/

theorem schedOn_drainSlotOn_ne (t : LCState) (now : Nat) {i j : Nat} (h : i ≠ j) :
    schedOn (drainSlotOn t now j) i = schedOn t i := by
  unfold drainSlotOn
  split <;> simp [schedOn_setOn_ne _ _ h, schedOn_setMask]

theorem schedOn_drainSlotOff (t : LCState) (now j i : Nat) :
    schedOn (drainSlotOff t now j) i = schedOn t i := by
  unfold drainSlotOff
  split <;> simp [schedOn_setOut, schedOn_setMask]

theorem schedOut_drainSlotOn (t : LCState) (now j i : Nat) :
    schedOut (drainSlotOn t now j) i = schedOut t i := by
  unfold drainSlotOn
  split <;> simp [schedOut_setOn, schedOut_setMask]

theorem schedOut_drainSlotOff_ne (t : LCState) (now : Nat) {i j : Nat} (h : i ≠ j) :
    schedOut (drainSlotOff t now j) i = schedOut t i := by
  unfold drainSlotOff
  split <;> simp [schedOut_setOut_ne _ _ h, schedOut_setMask]

theorem schedOn_drainSlotOn_self (t : LCState) (now : Nat) {i : Nat} (hi : i < 7) :
    schedOn (drainSlotOn t now i) i =
      if now > schedOn t i ∧ schedOn t i ≠ 0 then 0 else schedOn t i := by
  unfold drainSlotOn
  split <;> simp_all [schedOn_setOn_self, schedOn_setMask]

theorem schedOut_drainSlotOff_self (t : LCState) (now : Nat) {i : Nat} (hi : i < 7) :
    schedOut (drainSlotOff t now i) i =
      if now > schedOut t i ∧ schedOut t i ≠ 0 then 0 else schedOut t i := by
  unfold drainSlotOff
  split <;> simp_all [schedOut_setOut_self, schedOut_setMask]

/-- A drain visit to slot j leaves every other slot's on-timestamp
alone. -/
theorem schedOn_drainSlot_ne (t : LCState) (now : Nat) {i j : Nat} (h : i ≠ j) :
    schedOn (drainSlot t now j) i = schedOn t i := by
  unfold drainSlot
  rw [schedOn_drainSlotOff, schedOn_drainSlotOn_ne _ _ h]

/-- A drain visit to slot j leaves every other slot's off-timestamp
alone. -/
theorem schedOut_drainSlot_ne (t : LCState) (now : Nat) {i j : Nat} (h : i ≠ j) :
    schedOut (drainSlot t now j) i = schedOut t i := by
  unfold drainSlot
  rw [schedOut_drainSlotOff_ne _ _ h, schedOut_drainSlotOn]

/-- A drain visit clears the slot's own on-timestamp exactly when it
fired (nonzero and strictly below now). -/
theorem schedOn_drainSlot_self (t : LCState) (now : Nat) {i : Nat} (hi : i < 7) :
    schedOn (drainSlot t now i) i =
      if now > schedOn t i ∧ schedOn t i ≠ 0 then 0 else schedOn t i := by
  unfold drainSlot
  rw [schedOn_drainSlotOff, schedOn_drainSlotOn_self _ _ hi]

/-- A drain visit clears the slot's own off-timestamp exactly when it
fired (the on-half never moves the off-timestamps). -/
theorem schedOut_drainSlot_self (t : LCState) (now : Nat) {i : Nat} (hi : i < 7) :
    schedOut (drainSlot t now i) i =
      if now > schedOut t i ∧ schedOut t i ≠ 0 then 0 else schedOut t i := by
  unfold drainSlot
  rw [schedOut_drainSlotOff_self _ _ hi, schedOut_drainSlotOn]

/-- The on-half keeps the mask inside a byte. -/
theorem mask_drainSlotOn_lt (t : LCState) (now i : Nat)
    (hm : t.byNewLightsState < 256) :
    (drainSlotOn t now i).byNewLightsState < 256 := by
  unfold drainSlotOn
  split
  · rw [mask_setOn]
    exact toggle_lt_256 _ hm _ _
  · exact hm

/-- When the slot's off-action fires, the visit leaves the slot's light
reading OFF (the final write is the OFF toggle), and the mask stays a
byte. -/
theorem drainSlot_off_check (s : LCState) (now i : Nat)
    (hm : s.byNewLightsState < 256)
    (hf : now > schedOut s i) (hnz : schedOut s i ≠ 0) :
    CheckLightState (drainSlot s now i).byNewLightsState (lightsAt i) = .OFF ∧
    (drainSlot s now i).byNewLightsState < 256 := by
  unfold drainSlot drainSlotOff
  have hco : schedOut (drainSlotOn s now i) i = schedOut s i := schedOut_drainSlotOn ..
  rw [if_pos (by rw [hco]; exact ⟨hf, hnz⟩)]
  have hm1 : (drainSlotOn s now i).byNewLightsState < 256 := mask_drainSlotOn_lt _ _ _ hm
  constructor
  · rw [mask_setOut]
    exact toggleOff_check _ hm1 _
  · rw [mask_setOut]
    exact toggle_lt_256 _ hm1 _ _

/-- The mask evolution of one drain visit: the ON toggle of the slot's
light is applied exactly when the on-action fired, then the OFF toggle
exactly when the off-action fired (the on-half does not move the
off-timestamp, so the off-condition is the one on the incoming
state). -/
theorem drainSlot_mask (s : LCState) (now i : Nat) :
    (drainSlot s now i).byNewLightsState =
      if now > schedOut s i ∧ schedOut s i ≠ 0 then
        ToggleLightState
          (if now > schedOn s i ∧ schedOn s i ≠ 0 then
            ToggleLightState s.byNewLightsState (lightsAt i) .ON
          else s.byNewLightsState) (lightsAt i) .OFF
      else
        if now > schedOn s i ∧ schedOn s i ≠ 0 then
          ToggleLightState s.byNewLightsState (lightsAt i) .ON
        else s.byNewLightsState := by
  have hon : (drainSlotOn s now i).byNewLightsState =
      if now > schedOn s i ∧ schedOn s i ≠ 0 then
        ToggleLightState s.byNewLightsState (lightsAt i) .ON
      else s.byNewLightsState := by
    unfold drainSlotOn
    split <;> simp [mask_setOn]
  unfold drainSlot drainSlotOff
  rw [schedOut_drainSlotOn]
  split <;> simp [mask_setOut, hon]

/-- When the slot's on-action fires, the off-action does not, and the
incoming mask does not partially overlap the slot's light, the visit
leaves that light reading ON. -/
theorem drainSlot_on_check (s : LCState) (now i : Nat)
    (hm : s.byNewLightsState < 256)
    (hov : s.byNewLightsState &&& (lightsAt i).val = 0 ∨
      s.byNewLightsState &&& (lightsAt i).val = (lightsAt i).val)
    (hf : now > schedOn s i) (hnz : schedOn s i ≠ 0)
    (hoff : ¬ (now > schedOut s i ∧ schedOut s i ≠ 0)) :
    CheckLightState (drainSlot s now i).byNewLightsState (lightsAt i) = .ON := by
  unfold drainSlot drainSlotOff
  rw [schedOut_drainSlotOn]
  rw [if_neg hoff]
  unfold drainSlotOn
  rw [if_pos ⟨hf, hnz⟩, mask_setOn]
  exact toggleOn_check _ hm _ hov

/-!  The seven ticks of the start-sequence scenario, each computed
symbolically in T0. -/

theorem seqTick1 (T0 : Nat) (hw : T0 + 5000 < 4294967296) :
    Main (InitiateStartSequence initState) T0 .STARTING =
      { state := seqS1 T0, startTimers := false, flushed := none } := by
  have u1 : uadd T0 1000 = T0 + 1000 := by unfold uadd; omega
  have u2 : uadd T0 2000 = T0 + 2000 := by unfold uadd; omega
  have u3 : uadd T0 3000 = T0 + 3000 := by unfold uadd; omega
  have u4 : uadd T0 4000 = T0 + 4000 := by unfold uadd; omega
  have p1 : 0 < T0 + 1000 := by omega
  have f1 : ¬ (T0 + 1000 < T0) := by omega
  have f2 : ¬ (T0 + 2000 < T0) := by omega
  have f3 : ¬ (T0 + 3000 < T0) := by omega
  have f4 : ¬ (T0 + 4000 < T0) := by omega
  have n1 : T0 + 1000 ≠ 0 := by omega
  simp [Main, HandleStartSequence, InitiateStartSequence, initState, seqS1,
    startSequenceBusy, drain, drainSlot, drainSlotOn, drainSlotOff, ToggleLightState, CheckLightState,
    schedOn, schedOut, setOn, setOut, lightsAt, Lights.val,
    u1, u2, u3, u4, p1, f1, f2, f3, f4, n1]

theorem seqTick2 (T0 : Nat) :
    Main (seqS1 T0) (T0 + 1000) .STARTING =
      { state := seqS1 T0, startTimers := false, flushed := none } := by
  have p1 : 0 < T0 + 1000 := by omega
  have g1 : ¬ (T0 + 2000 < T0 + 1000) := by omega
  have g2 : ¬ (T0 + 3000 < T0 + 1000) := by omega
  have g3 : ¬ (T0 + 4000 < T0 + 1000) := by omega
  simp [Main, HandleStartSequence, seqS1, startSequenceBusy, drain, drainSlot, drainSlotOn, drainSlotOff,
    ToggleLightState, CheckLightState, schedOn, schedOut, setOn, setOut,
    lightsAt, Lights.val, p1, g1, g2, g3]

theorem seqTick3 (T0 : Nat) :
    Main (seqS1 T0) (T0 + 2000) .STARTING =
      { state := seqS3 T0, startTimers := false, flushed := some 32 } := by
  have p1 : 0 < T0 + 1000 := by omega
  have t1 : T0 + 1000 < T0 + 2000 := by omega
  have n1 : T0 + 1000 ≠ 0 := by omega
  have g1 : ¬ (T0 + 3000 < T0 + 2000) := by omega
  have g2 : ¬ (T0 + 4000 < T0 + 2000) := by omega
  simp [Main, HandleStartSequence, seqS1, seqS3, startSequenceBusy, drain, drainSlot, drainSlotOn, drainSlotOff,
    ToggleLightState, CheckLightState, schedOn, schedOut, setOn, setOut,
    lightsAt, Lights.val, p1, t1, n1, g1, g2]

theorem seqTick4 (T0 : Nat) :
    Main (seqS3 T0) (T0 + 3000) .STARTING =
      { state := seqS4 T0, startTimers := false, flushed := some 8 } := by
  have p2 : 0 < T0 + 2000 := by omega
  have t1 : T0 + 2000 < T0 + 3000 := by omega
  have n1 : T0 + 2000 ≠ 0 := by omega
  have g1 : ¬ (T0 + 4000 < T0 + 3000) := by omega
  simp [Main, HandleStartSequence, seqS1, seqS3, seqS4, startSequenceBusy, drain,
    drainSlot, drainSlotOn, drainSlotOff, ToggleLightState, CheckLightState, schedOn, schedOut, setOn, setOut,
    lightsAt, Lights.val, p2, t1, n1, g1]

theorem seqTick5 (T0 : Nat) :
    Main (seqS4 T0) (T0 + 4000) .STARTING =
      { state := seqS5 T0, startTimers := false, flushed := some 4 } := by
  have p3 : 0 < T0 + 3000 := by omega
  have t1 : T0 + 3000 < T0 + 4000 := by omega
  have n1 : T0 + 3000 ≠ 0 := by omega
  simp [Main, HandleStartSequence, seqS1, seqS3, seqS4, seqS5, startSequenceBusy,
    drain, drainSlot, drainSlotOn, drainSlotOff, ToggleLightState, CheckLightState, schedOn, schedOut, setOn,
    setOut, lightsAt, Lights.val, p3, t1, n1]

theorem seqTick6 (T0 : Nat) :
    Main (seqS5 T0) (T0 + 4001) .STARTING =
      { state := seqS6 T0, startTimers := true, flushed := some 0 } := by
  have p4 : 0 < T0 + 4000 := by omega
  have t1 : T0 + 4000 < T0 + 4001 := by omega
  have n1 : T0 + 4000 ≠ 0 := by omega
  simp [Main, HandleStartSequence, seqS1, seqS3, seqS4, seqS5, seqS6,
    startSequenceBusy, drain, drainSlot, drainSlotOn, drainSlotOff, ToggleLightState, CheckLightState,
    schedOn, schedOut, setOn, setOut, lightsAt, Lights.val, p4, t1, n1]

theorem seqTick7 (T0 : Nat) :
    Main (seqS6 T0) (T0 + 4002) .STARTING =
      { state := seqS7 T0, startTimers := false, flushed := none } := by
  simp [Main, HandleStartSequence, seqS1, seqS3, seqS4, seqS5, seqS6, seqS7,
    startSequenceBusy, drain, drainSlot, drainSlotOn, drainSlotOff, ToggleLightState, CheckLightState,
    schedOn, schedOut, setOn, setOut, lightsAt, Lights.val]

/-- The scenario states, folded up to the explicit records. -/
theorem seqState_eq (T0 : Nat) (hw : T0 + 5000 < 4294967296) :
    seqState T0 1 = seqS1 T0 ∧ seqState T0 2 = seqS1 T0 ∧
    seqState T0 3 = seqS3 T0 ∧ seqState T0 4 = seqS4 T0 ∧
    seqState T0 5 = seqS5 T0 ∧ seqState T0 6 = seqS6 T0 ∧
    seqState T0 7 = seqS7 T0 := by
  have e1 : seqState T0 1 = seqS1 T0 := by
    show (Main (seqState T0 0) (seqTimes T0 1) .STARTING).state = _
    rw [show seqState T0 0 = InitiateStartSequence initState from rfl,
      show seqTimes T0 1 = T0 from rfl, seqTick1 T0 hw]
  have e2 : seqState T0 2 = seqS1 T0 := by
    show (Main (seqState T0 1) (seqTimes T0 2) .STARTING).state = _
    rw [e1, show seqTimes T0 2 = T0 + 1000 from rfl, seqTick2 T0]
  have e3 : seqState T0 3 = seqS3 T0 := by
    show (Main (seqState T0 2) (seqTimes T0 3) .STARTING).state = _
    rw [e2, show seqTimes T0 3 = T0 + 2000 from rfl, seqTick3 T0]
  have e4 : seqState T0 4 = seqS4 T0 := by
    show (Main (seqState T0 3) (seqTimes T0 4) .STARTING).state = _
    rw [e3, show seqTimes T0 4 = T0 + 3000 from rfl, seqTick4 T0]
  have e5 : seqState T0 5 = seqS5 T0 := by
    show (Main (seqState T0 4) (seqTimes T0 5) .STARTING).state = _
    rw [e4, show seqTimes T0 5 = T0 + 4000 from rfl, seqTick5 T0]
  have e6 : seqState T0 6 = seqS6 T0 := by
    show (Main (seqState T0 5) (seqTimes T0 6) .STARTING).state = _
    rw [e5, show seqTimes T0 6 = T0 + 4001 from rfl, seqTick6 T0]
  have e7 : seqState T0 7 = seqS7 T0 := by
    show (Main (seqState T0 6) (seqTimes T0 7) .STARTING).state = _
    rw [e6, show seqTimes T0 7 = T0 + 4002 from rfl, seqTick7 T0]
  exact ⟨e1, e2, e3, e4, e5, e6, e7⟩


/-!  #########################  The claims  ######################### -/

/-- C1 (corrected): the spec start-sequence property fails on the code
as stated — slot 6 (YELLOW3) is armed but never drained, strict
comparisons delay every light by one tick boundary, and STARTED is
reached one tick later than the claimed schedule; this theorem proves
the behaviour that actually holds on the scenario's ticks. -/
theorem C1_amended (T0 : Nat) (hw : T0 + 5000 < 4294967296) : C1Prop T0 := by
  obtain ⟨e1, e2, e3, e4, e5, e6, e7⟩ := seqState_eq T0 hw
  unfold C1Prop
  rw [e1, e2, e3, e4, e5, e6, e7]
  repeat' apply And.intro
  all_goals simp [seqS1, seqS3, seqS4, seqS5, seqS6, seqS7, CheckLightState,
    Lights.val, schedOn, schedOut]

/-- C1 counterexample: at T0 = 1 the claim asserts the stage-1 light
(YELLOW3) is ON at the T0 tick; in fact its schedule is armed in slot 6
but the light stays OFF, and the state is still STARTING on the tick
past T0+4000 even though the claim has it STARTED by then. -/
theorem C1_counterexample :
    CheckLightState (seqState 1 1).byNewLightsState .YELLOW3 = .OFF ∧
    schedOn (seqState 1 1) 6 = 1 ∧
    (seqState 1 6).byOverallState = .STARTING := by
  obtain ⟨e1, e2, e3, e4, e5, e6, e7⟩ := seqState_eq 1 (by decide)
  rw [e1, e6]
  decide

/-- C1 witness. -/
theorem C1_amended_witness : 1 + 5000 < 4294967296 ∧ C1Prop 1 :=
  ⟨by decide, C1_amended 1 (by decide)⟩

/-- C2 (corrected): six of the seven light values are distinct powers
of two with pairwise disjoint bits, but WHITE = 130 carries two bits
and shares bit 1 with YELLOW3, so the claim as stated fails. -/
theorem C2_amended :
    (∀ L : Lights, L ≠ .WHITE → ∃ k, k < 8 ∧ L.val = 2 ^ k) ∧
    (∀ L M : Lights, L ≠ M → L.val &&& M.val ≠ 0 →
      (L = .WHITE ∧ M = .YELLOW3) ∨ (L = .YELLOW3 ∧ M = .WHITE)) ∧
    Lights.val .WHITE = 130 ∧
    (∀ L : Lights, L.val < 256) := by decide

/-- C2 counterexample: WHITE is not a power of two and its bits overlap
YELLOW3's. -/
theorem C2_counterexample :
    Lights.val .WHITE &&& Lights.val .YELLOW3 = 2 ∧
    (∀ k, k < 32 → Lights.val .WHITE ≠ 2 ^ k) := by decide

set_option maxRecDepth 40000 in
set_option maxHeartbeats 1000000 in
/-- C3 (corrected): the set/check round-trip laws hold on every byte
mask for the ON/OFF no-op parts and the OFF part, and hold for ON and
TOGGLE exactly when the mask does not partially overlap the light's
bits; because ToggleLightState uses numeric + on a mask that partially
overlaps WHITE, the ON law fails in general. -/
theorem C3_amended : ∀ mask, mask < 256 → ∀ L : Lights, C3Prop mask L := by decide

/-- C3 counterexample: with YELLOW3 lit (mask 2), requesting WHITE ON
adds 130 giving mask 132, and WHITE then reads OFF — the claimed
ON-after-set law fails. -/
theorem C3_counterexample :
    ToggleLightState 2 .WHITE .ON = 132 ∧
    CheckLightState (ToggleLightState 2 .WHITE .ON) .WHITE = .OFF := by decide

/-- C3 witness. -/
theorem C3_amended_witness : (2 : Nat) < 256 ∧ C3Prop 2 .GREEN :=
  ⟨by decide, C3_amended 2 (by decide) .GREEN⟩

/-- C4 (corrected): the drain contract holds for slots 0..5 (not the
whole 7-slot table) and an action fires only strictly after its
timestamp, not when the time has merely been reached. -/
theorem C4_amended (s : LCState) (now i : Nat) (h : i < 6) : C4Prop s now i := by
  refine ⟨?_, ?_, ?_, ?_, ?_⟩
  · interval_cases i <;>
      simp [drain_eq, schedOn_drainSlot_ne, schedOn_drainSlot_self]
  · interval_cases i <;>
      simp [drain_eq, schedOut_drainSlot_ne, schedOut_drainSlot_self]
  · exact drainSlot_mask s now i
  · intro hemp hm hov hf hnz hoff
    interval_cases i
    · rw [drain_eq]
      have k1 : schedOn (drainSlot s now 0) 1 = 0 := by
        rw [@schedOn_drainSlot_ne s now 1 0 (by decide)]
        exact (hemp 1 (by decide) (by decide)).1
      have l1 : schedOut (drainSlot s now 0) 1 = 0 := by
        rw [@schedOut_drainSlot_ne s now 1 0 (by decide)]
        exact (hemp 1 (by decide) (by decide)).2
      have k2 : schedOn (drainSlot s now 0) 2 = 0 := by
        rw [@schedOn_drainSlot_ne s now 2 0 (by decide)]
        exact (hemp 2 (by decide) (by decide)).1
      have l2 : schedOut (drainSlot s now 0) 2 = 0 := by
        rw [@schedOut_drainSlot_ne s now 2 0 (by decide)]
        exact (hemp 2 (by decide) (by decide)).2
      have k3 : schedOn (drainSlot s now 0) 3 = 0 := by
        rw [@schedOn_drainSlot_ne s now 3 0 (by decide)]
        exact (hemp 3 (by decide) (by decide)).1
      have l3 : schedOut (drainSlot s now 0) 3 = 0 := by
        rw [@schedOut_drainSlot_ne s now 3 0 (by decide)]
        exact (hemp 3 (by decide) (by decide)).2
      have k4 : schedOn (drainSlot s now 0) 4 = 0 := by
        rw [@schedOn_drainSlot_ne s now 4 0 (by decide)]
        exact (hemp 4 (by decide) (by decide)).1
      have l4 : schedOut (drainSlot s now 0) 4 = 0 := by
        rw [@schedOut_drainSlot_ne s now 4 0 (by decide)]
        exact (hemp 4 (by decide) (by decide)).2
      have k5 : schedOn (drainSlot s now 0) 5 = 0 := by
        rw [@schedOn_drainSlot_ne s now 5 0 (by decide)]
        exact (hemp 5 (by decide) (by decide)).1
      have l5 : schedOut (drainSlot s now 0) 5 = 0 := by
        rw [@schedOut_drainSlot_ne s now 5 0 (by decide)]
        exact (hemp 5 (by decide) (by decide)).2
      rw [drainSlot_skip (drainSlot s now 0) now 1 (Or.inr k1) (Or.inr l1)]
      rw [drainSlot_skip (drainSlot s now 0) now 2 (Or.inr k2) (Or.inr l2)]
      rw [drainSlot_skip (drainSlot s now 0) now 3 (Or.inr k3) (Or.inr l3)]
      rw [drainSlot_skip (drainSlot s now 0) now 4 (Or.inr k4) (Or.inr l4)]
      rw [drainSlot_skip (drainSlot s now 0) now 5 (Or.inr k5) (Or.inr l5)]
      exact drainSlot_on_check s now 0 hm hov hf hnz hoff
    · rw [drain_eq]
      rw [drainSlot_skip s now 0 (Or.inr (hemp 0 (by decide) (by decide)).1)
        (Or.inr (hemp 0 (by decide) (by decide)).2)]
      have k2 : schedOn (drainSlot s now 1) 2 = 0 := by
        rw [@schedOn_drainSlot_ne s now 2 1 (by decide)]
        exact (hemp 2 (by decide) (by decide)).1
      have l2 : schedOut (drainSlot s now 1) 2 = 0 := by
        rw [@schedOut_drainSlot_ne s now 2 1 (by decide)]
        exact (hemp 2 (by decide) (by decide)).2
      have k3 : schedOn (drainSlot s now 1) 3 = 0 := by
        rw [@schedOn_drainSlot_ne s now 3 1 (by decide)]
        exact (hemp 3 (by decide) (by decide)).1
      have l3 : schedOut (drainSlot s now 1) 3 = 0 := by
        rw [@schedOut_drainSlot_ne s now 3 1 (by decide)]
        exact (hemp 3 (by decide) (by decide)).2
      have k4 : schedOn (drainSlot s now 1) 4 = 0 := by
        rw [@schedOn_drainSlot_ne s now 4 1 (by decide)]
        exact (hemp 4 (by decide) (by decide)).1
      have l4 : schedOut (drainSlot s now 1) 4 = 0 := by
        rw [@schedOut_drainSlot_ne s now 4 1 (by decide)]
        exact (hemp 4 (by decide) (by decide)).2
      have k5 : schedOn (drainSlot s now 1) 5 = 0 := by
        rw [@schedOn_drainSlot_ne s now 5 1 (by decide)]
        exact (hemp 5 (by decide) (by decide)).1
      have l5 : schedOut (drainSlot s now 1) 5 = 0 := by
        rw [@schedOut_drainSlot_ne s now 5 1 (by decide)]
        exact (hemp 5 (by decide) (by decide)).2
      rw [drainSlot_skip (drainSlot s now 1) now 2 (Or.inr k2) (Or.inr l2)]
      rw [drainSlot_skip (drainSlot s now 1) now 3 (Or.inr k3) (Or.inr l3)]
      rw [drainSlot_skip (drainSlot s now 1) now 4 (Or.inr k4) (Or.inr l4)]
      rw [drainSlot_skip (drainSlot s now 1) now 5 (Or.inr k5) (Or.inr l5)]
      exact drainSlot_on_check s now 1 hm hov hf hnz hoff
    · rw [drain_eq]
      rw [drainSlot_skip s now 0 (Or.inr (hemp 0 (by decide) (by decide)).1)
        (Or.inr (hemp 0 (by decide) (by decide)).2)]
      rw [drainSlot_skip s now 1 (Or.inr (hemp 1 (by decide) (by decide)).1)
        (Or.inr (hemp 1 (by decide) (by decide)).2)]
      have k3 : schedOn (drainSlot s now 2) 3 = 0 := by
        rw [@schedOn_drainSlot_ne s now 3 2 (by decide)]
        exact (hemp 3 (by decide) (by decide)).1
      have l3 : schedOut (drainSlot s now 2) 3 = 0 := by
        rw [@schedOut_drainSlot_ne s now 3 2 (by decide)]
        exact (hemp 3 (by decide) (by decide)).2
      have k4 : schedOn (drainSlot s now 2) 4 = 0 := by
        rw [@schedOn_drainSlot_ne s now 4 2 (by decide)]
        exact (hemp 4 (by decide) (by decide)).1
      have l4 : schedOut (drainSlot s now 2) 4 = 0 := by
        rw [@schedOut_drainSlot_ne s now 4 2 (by decide)]
        exact (hemp 4 (by decide) (by decide)).2
      have k5 : schedOn (drainSlot s now 2) 5 = 0 := by
        rw [@schedOn_drainSlot_ne s now 5 2 (by decide)]
        exact (hemp 5 (by decide) (by decide)).1
      have l5 : schedOut (drainSlot s now 2) 5 = 0 := by
        rw [@schedOut_drainSlot_ne s now 5 2 (by decide)]
        exact (hemp 5 (by decide) (by decide)).2
      rw [drainSlot_skip (drainSlot s now 2) now 3 (Or.inr k3) (Or.inr l3)]
      rw [drainSlot_skip (drainSlot s now 2) now 4 (Or.inr k4) (Or.inr l4)]
      rw [drainSlot_skip (drainSlot s now 2) now 5 (Or.inr k5) (Or.inr l5)]
      exact drainSlot_on_check s now 2 hm hov hf hnz hoff
    · rw [drain_eq]
      rw [drainSlot_skip s now 0 (Or.inr (hemp 0 (by decide) (by decide)).1)
        (Or.inr (hemp 0 (by decide) (by decide)).2)]
      rw [drainSlot_skip s now 1 (Or.inr (hemp 1 (by decide) (by decide)).1)
        (Or.inr (hemp 1 (by decide) (by decide)).2)]
      rw [drainSlot_skip s now 2 (Or.inr (hemp 2 (by decide) (by decide)).1)
        (Or.inr (hemp 2 (by decide) (by decide)).2)]
      have k4 : schedOn (drainSlot s now 3) 4 = 0 := by
        rw [@schedOn_drainSlot_ne s now 4 3 (by decide)]
        exact (hemp 4 (by decide) (by decide)).1
      have l4 : schedOut (drainSlot s now 3) 4 = 0 := by
        rw [@schedOut_drainSlot_ne s now 4 3 (by decide)]
        exact (hemp 4 (by decide) (by decide)).2
      have k5 : schedOn (drainSlot s now 3) 5 = 0 := by
        rw [@schedOn_drainSlot_ne s now 5 3 (by decide)]
        exact (hemp 5 (by decide) (by decide)).1
      have l5 : schedOut (drainSlot s now 3) 5 = 0 := by
        rw [@schedOut_drainSlot_ne s now 5 3 (by decide)]
        exact (hemp 5 (by decide) (by decide)).2
      rw [drainSlot_skip (drainSlot s now 3) now 4 (Or.inr k4) (Or.inr l4)]
      rw [drainSlot_skip (drainSlot s now 3) now 5 (Or.inr k5) (Or.inr l5)]
      exact drainSlot_on_check s now 3 hm hov hf hnz hoff
    · rw [drain_eq]
      rw [drainSlot_skip s now 0 (Or.inr (hemp 0 (by decide) (by decide)).1)
        (Or.inr (hemp 0 (by decide) (by decide)).2)]
      rw [drainSlot_skip s now 1 (Or.inr (hemp 1 (by decide) (by decide)).1)
        (Or.inr (hemp 1 (by decide) (by decide)).2)]
      rw [drainSlot_skip s now 2 (Or.inr (hemp 2 (by decide) (by decide)).1)
        (Or.inr (hemp 2 (by decide) (by decide)).2)]
      rw [drainSlot_skip s now 3 (Or.inr (hemp 3 (by decide) (by decide)).1)
        (Or.inr (hemp 3 (by decide) (by decide)).2)]
      have k5 : schedOn (drainSlot s now 4) 5 = 0 := by
        rw [@schedOn_drainSlot_ne s now 5 4 (by decide)]
        exact (hemp 5 (by decide) (by decide)).1
      have l5 : schedOut (drainSlot s now 4) 5 = 0 := by
        rw [@schedOut_drainSlot_ne s now 5 4 (by decide)]
        exact (hemp 5 (by decide) (by decide)).2
      rw [drainSlot_skip (drainSlot s now 4) now 5 (Or.inr k5) (Or.inr l5)]
      exact drainSlot_on_check s now 4 hm hov hf hnz hoff
    · rw [drain_eq]
      rw [drainSlot_skip s now 0 (Or.inr (hemp 0 (by decide) (by decide)).1)
        (Or.inr (hemp 0 (by decide) (by decide)).2)]
      rw [drainSlot_skip s now 1 (Or.inr (hemp 1 (by decide) (by decide)).1)
        (Or.inr (hemp 1 (by decide) (by decide)).2)]
      rw [drainSlot_skip s now 2 (Or.inr (hemp 2 (by decide) (by decide)).1)
        (Or.inr (hemp 2 (by decide) (by decide)).2)]
      rw [drainSlot_skip s now 3 (Or.inr (hemp 3 (by decide) (by decide)).1)
        (Or.inr (hemp 3 (by decide) (by decide)).2)]
      rw [drainSlot_skip s now 4 (Or.inr (hemp 4 (by decide) (by decide)).1)
        (Or.inr (hemp 4 (by decide) (by decide)).2)]
      exact drainSlot_on_check s now 5 hm hov hf hnz hoff
  · intro hemp hm hf hnz
    interval_cases i
    · rw [drain_eq]
      have k1 : schedOn (drainSlot s now 0) 1 = 0 := by
        rw [@schedOn_drainSlot_ne s now 1 0 (by decide)]
        exact (hemp 1 (by decide) (by decide)).1
      have l1 : schedOut (drainSlot s now 0) 1 = 0 := by
        rw [@schedOut_drainSlot_ne s now 1 0 (by decide)]
        exact (hemp 1 (by decide) (by decide)).2
      have k2 : schedOn (drainSlot s now 0) 2 = 0 := by
        rw [@schedOn_drainSlot_ne s now 2 0 (by decide)]
        exact (hemp 2 (by decide) (by decide)).1
      have l2 : schedOut (drainSlot s now 0) 2 = 0 := by
        rw [@schedOut_drainSlot_ne s now 2 0 (by decide)]
        exact (hemp 2 (by decide) (by decide)).2
      have k3 : schedOn (drainSlot s now 0) 3 = 0 := by
        rw [@schedOn_drainSlot_ne s now 3 0 (by decide)]
        exact (hemp 3 (by decide) (by decide)).1
      have l3 : schedOut (drainSlot s now 0) 3 = 0 := by
        rw [@schedOut_drainSlot_ne s now 3 0 (by decide)]
        exact (hemp 3 (by decide) (by decide)).2
      have k4 : schedOn (drainSlot s now 0) 4 = 0 := by
        rw [@schedOn_drainSlot_ne s now 4 0 (by decide)]
        exact (hemp 4 (by decide) (by decide)).1
      have l4 : schedOut (drainSlot s now 0) 4 = 0 := by
        rw [@schedOut_drainSlot_ne s now 4 0 (by decide)]
        exact (hemp 4 (by decide) (by decide)).2
      have k5 : schedOn (drainSlot s now 0) 5 = 0 := by
        rw [@schedOn_drainSlot_ne s now 5 0 (by decide)]
        exact (hemp 5 (by decide) (by decide)).1
      have l5 : schedOut (drainSlot s now 0) 5 = 0 := by
        rw [@schedOut_drainSlot_ne s now 5 0 (by decide)]
        exact (hemp 5 (by decide) (by decide)).2
      rw [drainSlot_skip (drainSlot s now 0) now 1 (Or.inr k1) (Or.inr l1)]
      rw [drainSlot_skip (drainSlot s now 0) now 2 (Or.inr k2) (Or.inr l2)]
      rw [drainSlot_skip (drainSlot s now 0) now 3 (Or.inr k3) (Or.inr l3)]
      rw [drainSlot_skip (drainSlot s now 0) now 4 (Or.inr k4) (Or.inr l4)]
      rw [drainSlot_skip (drainSlot s now 0) now 5 (Or.inr k5) (Or.inr l5)]
      exact (drainSlot_off_check s now 0 hm hf hnz).1
    · rw [drain_eq]
      rw [drainSlot_skip s now 0 (Or.inr (hemp 0 (by decide) (by decide)).1)
        (Or.inr (hemp 0 (by decide) (by decide)).2)]
      have k2 : schedOn (drainSlot s now 1) 2 = 0 := by
        rw [@schedOn_drainSlot_ne s now 2 1 (by decide)]
        exact (hemp 2 (by decide) (by decide)).1
      have l2 : schedOut (drainSlot s now 1) 2 = 0 := by
        rw [@schedOut_drainSlot_ne s now 2 1 (by decide)]
        exact (hemp 2 (by decide) (by decide)).2
      have k3 : schedOn (drainSlot s now 1) 3 = 0 := by
        rw [@schedOn_drainSlot_ne s now 3 1 (by decide)]
        exact (hemp 3 (by decide) (by decide)).1
      have l3 : schedOut (drainSlot s now 1) 3 = 0 := by
        rw [@schedOut_drainSlot_ne s now 3 1 (by decide)]
        exact (hemp 3 (by decide) (by decide)).2
      have k4 : schedOn (drainSlot s now 1) 4 = 0 := by
        rw [@schedOn_drainSlot_ne s now 4 1 (by decide)]
        exact (hemp 4 (by decide) (by decide)).1
      have l4 : schedOut (drainSlot s now 1) 4 = 0 := by
        rw [@schedOut_drainSlot_ne s now 4 1 (by decide)]
        exact (hemp 4 (by decide) (by decide)).2
      have k5 : schedOn (drainSlot s now 1) 5 = 0 := by
        rw [@schedOn_drainSlot_ne s now 5 1 (by decide)]
        exact (hemp 5 (by decide) (by decide)).1
      have l5 : schedOut (drainSlot s now 1) 5 = 0 := by
        rw [@schedOut_drainSlot_ne s now 5 1 (by decide)]
        exact (hemp 5 (by decide) (by decide)).2
      rw [drainSlot_skip (drainSlot s now 1) now 2 (Or.inr k2) (Or.inr l2)]
      rw [drainSlot_skip (drainSlot s now 1) now 3 (Or.inr k3) (Or.inr l3)]
      rw [drainSlot_skip (drainSlot s now 1) now 4 (Or.inr k4) (Or.inr l4)]
      rw [drainSlot_skip (drainSlot s now 1) now 5 (Or.inr k5) (Or.inr l5)]
      exact (drainSlot_off_check s now 1 hm hf hnz).1
    · rw [drain_eq]
      rw [drainSlot_skip s now 0 (Or.inr (hemp 0 (by decide) (by decide)).1)
        (Or.inr (hemp 0 (by decide) (by decide)).2)]
      rw [drainSlot_skip s now 1 (Or.inr (hemp 1 (by decide) (by decide)).1)
        (Or.inr (hemp 1 (by decide) (by decide)).2)]
      have k3 : schedOn (drainSlot s now 2) 3 = 0 := by
        rw [@schedOn_drainSlot_ne s now 3 2 (by decide)]
        exact (hemp 3 (by decide) (by decide)).1
      have l3 : schedOut (drainSlot s now 2) 3 = 0 := by
        rw [@schedOut_drainSlot_ne s now 3 2 (by decide)]
        exact (hemp 3 (by decide) (by decide)).2
      have k4 : schedOn (drainSlot s now 2) 4 = 0 := by
        rw [@schedOn_drainSlot_ne s now 4 2 (by decide)]
        exact (hemp 4 (by decide) (by decide)).1
      have l4 : schedOut (drainSlot s now 2) 4 = 0 := by
        rw [@schedOut_drainSlot_ne s now 4 2 (by decide)]
        exact (hemp 4 (by decide) (by decide)).2
      have k5 : schedOn (drainSlot s now 2) 5 = 0 := by
        rw [@schedOn_drainSlot_ne s now 5 2 (by decide)]
        exact (hemp 5 (by decide) (by decide)).1
      have l5 : schedOut (drainSlot s now 2) 5 = 0 := by
        rw [@schedOut_drainSlot_ne s now 5 2 (by decide)]
        exact (hemp 5 (by decide) (by decide)).2
      rw [drainSlot_skip (drainSlot s now 2) now 3 (Or.inr k3) (Or.inr l3)]
      rw [drainSlot_skip (drainSlot s now 2) now 4 (Or.inr k4) (Or.inr l4)]
      rw [drainSlot_skip (drainSlot s now 2) now 5 (Or.inr k5) (Or.inr l5)]
      exact (drainSlot_off_check s now 2 hm hf hnz).1
    · rw [drain_eq]
      rw [drainSlot_skip s now 0 (Or.inr (hemp 0 (by decide) (by decide)).1)
        (Or.inr (hemp 0 (by decide) (by decide)).2)]
      rw [drainSlot_skip s now 1 (Or.inr (hemp 1 (by decide) (by decide)).1)
        (Or.inr (hemp 1 (by decide) (by decide)).2)]
      rw [drainSlot_skip s now 2 (Or.inr (hemp 2 (by decide) (by decide)).1)
        (Or.inr (hemp 2 (by decide) (by decide)).2)]
      have k4 : schedOn (drainSlot s now 3) 4 = 0 := by
        rw [@schedOn_drainSlot_ne s now 4 3 (by decide)]
        exact (hemp 4 (by decide) (by decide)).1
      have l4 : schedOut (drainSlot s now 3) 4 = 0 := by
        rw [@schedOut_drainSlot_ne s now 4 3 (by decide)]
        exact (hemp 4 (by decide) (by decide)).2
      have k5 : schedOn (drainSlot s now 3) 5 = 0 := by
        rw [@schedOn_drainSlot_ne s now 5 3 (by decide)]
        exact (hemp 5 (by decide) (by decide)).1
      have l5 : schedOut (drainSlot s now 3) 5 = 0 := by
        rw [@schedOut_drainSlot_ne s now 5 3 (by decide)]
        exact (hemp 5 (by decide) (by decide)).2
      rw [drainSlot_skip (drainSlot s now 3) now 4 (Or.inr k4) (Or.inr l4)]
      rw [drainSlot_skip (drainSlot s now 3) now 5 (Or.inr k5) (Or.inr l5)]
      exact (drainSlot_off_check s now 3 hm hf hnz).1
    · rw [drain_eq]
      rw [drainSlot_skip s now 0 (Or.inr (hemp 0 (by decide) (by decide)).1)
        (Or.inr (hemp 0 (by decide) (by decide)).2)]
      rw [drainSlot_skip s now 1 (Or.inr (hemp 1 (by decide) (by decide)).1)
        (Or.inr (hemp 1 (by decide) (by decide)).2)]
      rw [drainSlot_skip s now 2 (Or.inr (hemp 2 (by decide) (by decide)).1)
        (Or.inr (hemp 2 (by decide) (by decide)).2)]
      rw [drainSlot_skip s now 3 (Or.inr (hemp 3 (by decide) (by decide)).1)
        (Or.inr (hemp 3 (by decide) (by decide)).2)]
      have k5 : schedOn (drainSlot s now 4) 5 = 0 := by
        rw [@schedOn_drainSlot_ne s now 5 4 (by decide)]
        exact (hemp 5 (by decide) (by decide)).1
      have l5 : schedOut (drainSlot s now 4) 5 = 0 := by
        rw [@schedOut_drainSlot_ne s now 5 4 (by decide)]
        exact (hemp 5 (by decide) (by decide)).2
      rw [drainSlot_skip (drainSlot s now 4) now 5 (Or.inr k5) (Or.inr l5)]
      exact (drainSlot_off_check s now 4 hm hf hnz).1
    · rw [drain_eq]
      rw [drainSlot_skip s now 0 (Or.inr (hemp 0 (by decide) (by decide)).1)
        (Or.inr (hemp 0 (by decide) (by decide)).2)]
      rw [drainSlot_skip s now 1 (Or.inr (hemp 1 (by decide) (by decide)).1)
        (Or.inr (hemp 1 (by decide) (by decide)).2)]
      rw [drainSlot_skip s now 2 (Or.inr (hemp 2 (by decide) (by decide)).1)
        (Or.inr (hemp 2 (by decide) (by decide)).2)]
      rw [drainSlot_skip s now 3 (Or.inr (hemp 3 (by decide) (by decide)).1)
        (Or.inr (hemp 3 (by decide) (by decide)).2)]
      rw [drainSlot_skip s now 4 (Or.inr (hemp 4 (by decide) (by decide)).1)
        (Or.inr (hemp 4 (by decide) (by decide)).2)]
      exact (drainSlot_off_check s now 5 hm hf hnz).1

/-- C4 counterexample: an on-timestamp that the clock has exactly
reached (now = 5 = timestamp) does not fire: the slot keeps its
timestamp and the light stays off, though the claim says "reached or
passed". -/
theorem C4_counterexample :
    schedOn (drain (setOn initState 2 5) 5) 2 = 5 ∧
    (drain (setOn initState 2 5) 5).byNewLightsState = 0 := by decide

/-- C4 witness. -/
theorem C4_amended_witness :
    (2 : Nat) < 6 ∧ C4Prop (setOut (setOn initState 2 3) 2 7) 8 2 :=
  ⟨by decide, C4_amended (setOut (setOn initState 2 3) 2 7) 8 2 (by decide)⟩

/-- C5 (confirmed): each Main call flushes at most once — the flush
fires, carrying the final pending mask, exactly when that mask differs
from the previously applied one, after which applied equals pending. -/
theorem C5_flush (s : LCState) (now : Nat) (race : RaceStates) :
    ((Main s now race).flushed = none ↔
      (drain (HandleStartSequence s now race).1 now).byNewLightsState =
        s.byCurrentLightsState) ∧
    (Main s now race).state.byCurrentLightsState =
      (Main s now race).state.byNewLightsState ∧
    ((Main s now race).flushed = none ∨
      (Main s now race).flushed = some (Main s now race).state.byNewLightsState) := by
  have hc : (drain (HandleStartSequence s now race).1 now).byCurrentLightsState
      = s.byCurrentLightsState := by rw [drain_current, handle_current]
  simp only [Main]
  by_cases hne : (drain (HandleStartSequence s now race).1 now).byCurrentLightsState
      ≠ (drain (HandleStartSequence s now race).1 now).byNewLightsState
  · rw [if_pos hne]
    refine ⟨?_, rfl, Or.inr rfl⟩
    constructor
    · intro hcontra
      exact Option.noConfusion hcontra
    · intro he
      exact absurd (hc.trans he.symm) hne
  · rw [if_neg hne]
    push_neg at hne
    exact ⟨⟨fun _ => hne.symm.trans hc, fun _ => rfl⟩, hne, Or.inl rfl⟩

set_option maxRecDepth 20000 in
set_option maxHeartbeats 1600000 in
/-- C6 (corrected): the fault-light behaviour holds as specified except
for the re-arm window: after a second fault at T+500 the WHITE light
goes OFF on the first tick strictly past T+1500, well before the
T+2500 bound the claim gives for the earliest OFF. -/
theorem C6_amended (i T : Nat) (hi : i < 4) (hw : T + 2000 < 4294967296) :
    C6Prop i T := by
  have u1 : uadd T 1000 = T + 1000 := by unfold uadd; omega
  have u2 : uadd (T + 500) 1000 = T + 1500 := by unfold uadd; omega
  have t1 : T + 500 < T + 501 := by omega
  have n1 : T + 500 ≠ 0 := by omega
  have f1 : ¬ (T + 1500 < T + 501) := by omega
  have t2 : T + 1500 < T + 1501 := by omega
  have n2 : T + 1500 ≠ 0 := by omega
  interval_cases i
  · have a1 : faultA 0 T = { initState with byNewLightsState := 64, on0 := T, out0 := T + 1000 } := by
      simp +decide [faultA, ToggleFaultLight, Main, HandleStartSequence, startSequenceBusy, drain, drainSlot, drainSlotOn,
        drainSlotOff, ToggleLightState, CheckLightState, dogErrorLigths, List.getD,
        schedOn, schedOut, setOn, setOut, lightsAt, Lights.val, initState, u1]
    have a2 : faultB 0 T = { initState with byNewLightsState := 64, on0 := T + 500, out0 := T + 1500 } := by
      rw [show faultB 0 T = ToggleFaultLight (faultA 0 T) 0 .ON (T + 500) from rfl, a1]
      simp +decide [ToggleFaultLight, Main, HandleStartSequence, startSequenceBusy, drain, drainSlot, drainSlotOn,
        drainSlotOff, ToggleLightState, CheckLightState, dogErrorLigths, List.getD,
        schedOn, schedOut, setOn, setOut, lightsAt, Lights.val, initState, u2]
    have a3 : faultC 0 T = { initState with byNewLightsState := 194, byCurrentLightsState := 194, on0 := 0, out0 := T + 1500 } := by
      rw [show faultC 0 T = (Main (faultB 0 T) (T + 501) .NOT_STARTING).state from rfl, a2]
      simp +decide [ToggleFaultLight, Main, HandleStartSequence, startSequenceBusy, drain, drainSlot, drainSlotOn,
        drainSlotOff, ToggleLightState, CheckLightState, dogErrorLigths, List.getD,
        schedOn, schedOut, setOn, setOut, lightsAt, Lights.val, initState, t1, n1, f1]
    have a4 : faultD 0 T = { initState with byNewLightsState := 194, byCurrentLightsState := 194, on0 := 0, out0 := T + 1500 } := by
      rw [show faultD 0 T = (Main (faultC 0 T) (T + 1500) .NOT_STARTING).state from rfl, a3]
      simp +decide [ToggleFaultLight, Main, HandleStartSequence, startSequenceBusy, drain, drainSlot, drainSlotOn,
        drainSlotOff, ToggleLightState, CheckLightState, dogErrorLigths, List.getD,
        schedOn, schedOut, setOn, setOut, lightsAt, Lights.val, initState]
    have a5 : faultE 0 T = { initState with byNewLightsState := 64, byCurrentLightsState := 64, on0 := 0, out0 := 0 } := by
      rw [show faultE 0 T = (Main (faultD 0 T) (T + 1501) .NOT_STARTING).state from rfl, a4]
      simp +decide [ToggleFaultLight, Main, HandleStartSequence, startSequenceBusy, drain, drainSlot, drainSlotOn,
        drainSlotOff, ToggleLightState, CheckLightState, dogErrorLigths, List.getD,
        schedOn, schedOut, setOn, setOut, lightsAt, Lights.val, initState, t2, n2]
    simp only [C6Prop]
    rw [show faultF 0 T = ToggleFaultLight (faultE 0 T) 0 .OFF (T + 1600) from rfl,
      a1, a2, a3, a4, a5]
    simp +decide [ToggleFaultLight, ToggleLightState, CheckLightState, dogErrorLigths,
      List.getD, schedOn, schedOut, setOn, setOut, Lights.val, initState]
  · have a1 : faultA 1 T = { initState with byNewLightsState := 16, on0 := T, out0 := T + 1000 } := by
      simp +decide [faultA, ToggleFaultLight, Main, HandleStartSequence, startSequenceBusy, drain, drainSlot, drainSlotOn,
        drainSlotOff, ToggleLightState, CheckLightState, dogErrorLigths, List.getD,
        schedOn, schedOut, setOn, setOut, lightsAt, Lights.val, initState, u1]
    have a2 : faultB 1 T = { initState with byNewLightsState := 16, on0 := T + 500, out0 := T + 1500 } := by
      rw [show faultB 1 T = ToggleFaultLight (faultA 1 T) 1 .ON (T + 500) from rfl, a1]
      simp +decide [ToggleFaultLight, Main, HandleStartSequence, startSequenceBusy, drain, drainSlot, drainSlotOn,
        drainSlotOff, ToggleLightState, CheckLightState, dogErrorLigths, List.getD,
        schedOn, schedOut, setOn, setOut, lightsAt, Lights.val, initState, u2]
    have a3 : faultC 1 T = { initState with byNewLightsState := 146, byCurrentLightsState := 146, on0 := 0, out0 := T + 1500 } := by
      rw [show faultC 1 T = (Main (faultB 1 T) (T + 501) .NOT_STARTING).state from rfl, a2]
      simp +decide [ToggleFaultLight, Main, HandleStartSequence, startSequenceBusy, drain, drainSlot, drainSlotOn,
        drainSlotOff, ToggleLightState, CheckLightState, dogErrorLigths, List.getD,
        schedOn, schedOut, setOn, setOut, lightsAt, Lights.val, initState, t1, n1, f1]
    have a4 : faultD 1 T = { initState with byNewLightsState := 146, byCurrentLightsState := 146, on0 := 0, out0 := T + 1500 } := by
      rw [show faultD 1 T = (Main (faultC 1 T) (T + 1500) .NOT_STARTING).state from rfl, a3]
      simp +decide [ToggleFaultLight, Main, HandleStartSequence, startSequenceBusy, drain, drainSlot, drainSlotOn,
        drainSlotOff, ToggleLightState, CheckLightState, dogErrorLigths, List.getD,
        schedOn, schedOut, setOn, setOut, lightsAt, Lights.val, initState]
    have a5 : faultE 1 T = { initState with byNewLightsState := 16, byCurrentLightsState := 16, on0 := 0, out0 := 0 } := by
      rw [show faultE 1 T = (Main (faultD 1 T) (T + 1501) .NOT_STARTING).state from rfl, a4]
      simp +decide [ToggleFaultLight, Main, HandleStartSequence, startSequenceBusy, drain, drainSlot, drainSlotOn,
        drainSlotOff, ToggleLightState, CheckLightState, dogErrorLigths, List.getD,
        schedOn, schedOut, setOn, setOut, lightsAt, Lights.val, initState, t2, n2]
    simp only [C6Prop]
    rw [show faultF 1 T = ToggleFaultLight (faultE 1 T) 1 .OFF (T + 1600) from rfl,
      a1, a2, a3, a4, a5]
    simp +decide [ToggleFaultLight, ToggleLightState, CheckLightState, dogErrorLigths,
      List.getD, schedOn, schedOut, setOn, setOut, Lights.val, initState]
  · have a1 : faultA 2 T = { initState with byNewLightsState := 8, on0 := T, out0 := T + 1000 } := by
      simp +decide [faultA, ToggleFaultLight, Main, HandleStartSequence, startSequenceBusy, drain, drainSlot, drainSlotOn,
        drainSlotOff, ToggleLightState, CheckLightState, dogErrorLigths, List.getD,
        schedOn, schedOut, setOn, setOut, lightsAt, Lights.val, initState, u1]
    have a2 : faultB 2 T = { initState with byNewLightsState := 8, on0 := T + 500, out0 := T + 1500 } := by
      rw [show faultB 2 T = ToggleFaultLight (faultA 2 T) 2 .ON (T + 500) from rfl, a1]
      simp +decide [ToggleFaultLight, Main, HandleStartSequence, startSequenceBusy, drain, drainSlot, drainSlotOn,
        drainSlotOff, ToggleLightState, CheckLightState, dogErrorLigths, List.getD,
        schedOn, schedOut, setOn, setOut, lightsAt, Lights.val, initState, u2]
    have a3 : faultC 2 T = { initState with byNewLightsState := 138, byCurrentLightsState := 138, on0 := 0, out0 := T + 1500 } := by
      rw [show faultC 2 T = (Main (faultB 2 T) (T + 501) .NOT_STARTING).state from rfl, a2]
      simp +decide [ToggleFaultLight, Main, HandleStartSequence, startSequenceBusy, drain, drainSlot, drainSlotOn,
        drainSlotOff, ToggleLightState, CheckLightState, dogErrorLigths, List.getD,
        schedOn, schedOut, setOn, setOut, lightsAt, Lights.val, initState, t1, n1, f1]
    have a4 : faultD 2 T = { initState with byNewLightsState := 138, byCurrentLightsState := 138, on0 := 0, out0 := T + 1500 } := by
      rw [show faultD 2 T = (Main (faultC 2 T) (T + 1500) .NOT_STARTING).state from rfl, a3]
      simp +decide [ToggleFaultLight, Main, HandleStartSequence, startSequenceBusy, drain, drainSlot, drainSlotOn,
        drainSlotOff, ToggleLightState, CheckLightState, dogErrorLigths, List.getD,
        schedOn, schedOut, setOn, setOut, lightsAt, Lights.val, initState]
    have a5 : faultE 2 T = { initState with byNewLightsState := 8, byCurrentLightsState := 8, on0 := 0, out0 := 0 } := by
      rw [show faultE 2 T = (Main (faultD 2 T) (T + 1501) .NOT_STARTING).state from rfl, a4]
      simp +decide [ToggleFaultLight, Main, HandleStartSequence, startSequenceBusy, drain, drainSlot, drainSlotOn,
        drainSlotOff, ToggleLightState, CheckLightState, dogErrorLigths, List.getD,
        schedOn, schedOut, setOn, setOut, lightsAt, Lights.val, initState, t2, n2]
    simp only [C6Prop]
    rw [show faultF 2 T = ToggleFaultLight (faultE 2 T) 2 .OFF (T + 1600) from rfl,
      a1, a2, a3, a4, a5]
    simp +decide [ToggleFaultLight, ToggleLightState, CheckLightState, dogErrorLigths,
      List.getD, schedOn, schedOut, setOn, setOut, Lights.val, initState]
  · have a1 : faultA 3 T = { initState with byNewLightsState := 4, on0 := T, out0 := T + 1000 } := by
      simp +decide [faultA, ToggleFaultLight, Main, HandleStartSequence, startSequenceBusy, drain, drainSlot, drainSlotOn,
        drainSlotOff, ToggleLightState, CheckLightState, dogErrorLigths, List.getD,
        schedOn, schedOut, setOn, setOut, lightsAt, Lights.val, initState, u1]
    have a2 : faultB 3 T = { initState with byNewLightsState := 4, on0 := T + 500, out0 := T + 1500 } := by
      rw [show faultB 3 T = ToggleFaultLight (faultA 3 T) 3 .ON (T + 500) from rfl, a1]
      simp +decide [ToggleFaultLight, Main, HandleStartSequence, startSequenceBusy, drain, drainSlot, drainSlotOn,
        drainSlotOff, ToggleLightState, CheckLightState, dogErrorLigths, List.getD,
        schedOn, schedOut, setOn, setOut, lightsAt, Lights.val, initState, u2]
    have a3 : faultC 3 T = { initState with byNewLightsState := 134, byCurrentLightsState := 134, on0 := 0, out0 := T + 1500 } := by
      rw [show faultC 3 T = (Main (faultB 3 T) (T + 501) .NOT_STARTING).state from rfl, a2]
      simp +decide [ToggleFaultLight, Main, HandleStartSequence, startSequenceBusy, drain, drainSlot, drainSlotOn,
        drainSlotOff, ToggleLightState, CheckLightState, dogErrorLigths, List.getD,
        schedOn, schedOut, setOn, setOut, lightsAt, Lights.val, initState, t1, n1, f1]
    have a4 : faultD 3 T = { initState with byNewLightsState := 134, byCurrentLightsState := 134, on0 := 0, out0 := T + 1500 } := by
      rw [show faultD 3 T = (Main (faultC 3 T) (T + 1500) .NOT_STARTING).state from rfl, a3]
      simp +decide [ToggleFaultLight, Main, HandleStartSequence, startSequenceBusy, drain, drainSlot, drainSlotOn,
        drainSlotOff, ToggleLightState, CheckLightState, dogErrorLigths, List.getD,
        schedOn, schedOut, setOn, setOut, lightsAt, Lights.val, initState]
    have a5 : faultE 3 T = { initState with byNewLightsState := 4, byCurrentLightsState := 4, on0 := 0, out0 := 0 } := by
      rw [show faultE 3 T = (Main (faultD 3 T) (T + 1501) .NOT_STARTING).state from rfl, a4]
      simp +decide [ToggleFaultLight, Main, HandleStartSequence, startSequenceBusy, drain, drainSlot, drainSlotOn,
        drainSlotOff, ToggleLightState, CheckLightState, dogErrorLigths, List.getD,
        schedOn, schedOut, setOn, setOut, lightsAt, Lights.val, initState, t2, n2]
    simp only [C6Prop]
    rw [show faultF 3 T = ToggleFaultLight (faultE 3 T) 3 .OFF (T + 1600) from rfl,
      a1, a2, a3, a4, a5]
    simp +decide [ToggleFaultLight, ToggleLightState, CheckLightState, dogErrorLigths,
      List.getD, schedOn, schedOut, setOn, setOut, Lights.val, initState]

/-- C6 counterexample: with T = 1 and dog 0, after the re-armed window
the WHITE light is already OFF at the tick at T+1501, though the claim
says it is OFF only after T+2500. -/
theorem C6_counterexample :
    CheckLightState (faultE 0 1).byNewLightsState .WHITE = .OFF ∧
    1 + 1501 < 1 + 2500 := by
  have b1 : faultA 0 1 = { initState with byNewLightsState := 64, on0 := 1, out0 := 1001 } := by
    decide
  have b2 : faultB 0 1 = { initState with byNewLightsState := 64, on0 := 501, out0 := 1501 } := by
    rw [show faultB 0 1 = ToggleFaultLight (faultA 0 1) 0 .ON 501 from rfl, b1]
    decide
  have b3 : faultC 0 1 = { initState with byNewLightsState := 194, byCurrentLightsState := 194, on0 := 0, out0 := 1501 } := by
    rw [show faultC 0 1 = (Main (faultB 0 1) 502 .NOT_STARTING).state from rfl, b2]
    decide
  have b4 : faultD 0 1 = { initState with byNewLightsState := 194, byCurrentLightsState := 194, on0 := 0, out0 := 1501 } := by
    rw [show faultD 0 1 = (Main (faultC 0 1) 1501 .NOT_STARTING).state from rfl, b3]
    decide
  have b5 : faultE 0 1 = { initState with byNewLightsState := 64, byCurrentLightsState := 64, on0 := 0, out0 := 0 } := by
    rw [show faultE 0 1 = (Main (faultD 0 1) 1502 .NOT_STARTING).state from rfl, b4]
    decide
  rw [b5]
  decide

/-- C6 witness. -/
theorem C6_amended_witness : (0 : Nat) < 4 ∧ 1 + 2000 < 4294967296 ∧ C6Prop 0 1 :=
  ⟨by decide, by decide, C6_amended 0 1 (by decide) (by decide)⟩

/-- C7 (corrected): ResetLights stops the machine, zeroes the pending
mask and clears slots 0..5 — but not slot 6, so "every schedule slot"
fails; it leaves the applied mask alone and the next tick's flush
drives it to 0. -/
theorem C7_amended (s : LCState) (now : Nat) (race : RaceStates) (i : Nat)
    (h : i < 6) : C7Prop s now race i := by
  have hre : ResetLights s =
      { s with
        byOverallState := .STOPPED, byNewLightsState := 0
        on0 := 0, on1 := 0, on2 := 0, on3 := 0, on4 := 0, on5 := 0
        out0 := 0, out1 := 0, out2 := 0, out3 := 0, out4 := 0, out5 := 0 } := by
    simp [ResetLights, DeleteSchedules, setOn, setOut]
  have h1 : HandleStartSequence (ResetLights s) now race = (ResetLights s, false) :=
    handle_skip _ _ _ (by rw [hre]; simp)
  have h2 : drain (ResetLights s) now = ResetLights s := by
    rw [drain_eq]
    rw [drainSlot_skip _ now 0 (Or.inr (by rw [hre]; rfl)) (Or.inr (by rw [hre]; rfl))]
    rw [drainSlot_skip _ now 1 (Or.inr (by rw [hre]; rfl)) (Or.inr (by rw [hre]; rfl))]
    rw [drainSlot_skip _ now 2 (Or.inr (by rw [hre]; rfl)) (Or.inr (by rw [hre]; rfl))]
    rw [drainSlot_skip _ now 3 (Or.inr (by rw [hre]; rfl)) (Or.inr (by rw [hre]; rfl))]
    rw [drainSlot_skip _ now 4 (Or.inr (by rw [hre]; rfl)) (Or.inr (by rw [hre]; rfl))]
    rw [drainSlot_skip _ now 5 (Or.inr (by rw [hre]; rfl)) (Or.inr (by rw [hre]; rfl))]
  have hmn : (Main (ResetLights s) now race).state.byCurrentLightsState = 0 ∧
      (Main (ResetLights s) now race).state.byNewLightsState = 0 := by
    simp only [Main, h1, h2]
    by_cases hz : (ResetLights s).byCurrentLightsState ≠ (ResetLights s).byNewLightsState
    · rw [if_pos hz]
      rw [hre]
      exact ⟨rfl, rfl⟩
    · rw [if_neg hz]
      push_neg at hz
      rw [hre] at hz ⊢
      exact ⟨hz, rfl⟩
  refine ⟨by rw [hre], by rw [hre], ?_, ?_, by rw [hre]; simp [schedOn],
    by rw [hre]; simp [schedOut], by rw [hre], hmn.1, hmn.2⟩
  · interval_cases i <;> (rw [hre]; rfl)
  · interval_cases i <;> (rw [hre]; rfl)

/-- C7 counterexample: from a state whose slot 6 is armed (one tick
after InitiateStartSequence at time 1), ResetLights leaves slot 6's
on-timestamp at 1 — not every slot is cleared. -/
theorem C7_counterexample :
    schedOn (ResetLights (seqState 1 1)) 6 = 1 ∧
    schedOn (ResetLights (seqState 1 1)) 6 ≠ 0 := by
  obtain ⟨e1, e2, e3, e4, e5, e6, e7⟩ := seqState_eq 1 (by decide)
  rw [e1]
  decide

/-- C7 witness. -/
theorem C7_amended_witness :
    (3 : Nat) < 6 ∧ C7Prop (seqS1 1) 5 .NOT_STARTING 3 :=
  ⟨by decide, C7_amended (seqS1 1) 5 .NOT_STARTING 3 (by decide)⟩

/-- C8 (confirmed): StartTimers fires exactly on ticks that begin with
the controller STARTING, GREEN reading ON and the race state STARTING;
in the start-sequence run it fires on the tick at T0+4001 and never
after GREEN has turned back off. -/
theorem C8_timers (T0 : Nat) (hw : T0 + 5000 < 4294967296) : C8Prop T0 := by
  obtain ⟨e1, e2, e3, e4, e5, e6, e7⟩ := seqState_eq T0 hw
  refine ⟨?_, ?_, ?_, ?_, ?_⟩
  · intro s now race
    rw [Main_startTimers]
    by_cases hS : s.byOverallState = .STARTING
    · unfold HandleStartSequence
      rw [if_pos hS]
      simp [hS, mask_ite, mask_setOn, mask_setOut, decide_eq_true_eq]
    · rw [handle_skip _ _ _ hS]
      simp [hS]
  · rw [e5, seqTick6]
  · rw [e5]
    simp [seqS5, seqS4, seqS3, seqS1, CheckLightState, Lights.val]
  · rw [e6]
    simp [seqS6, seqS5, seqS4, seqS3, seqS1, CheckLightState, Lights.val]
  · rw [e6, seqTick7]

/-- C8 witness. -/
theorem C8_timers_witness : 1 + 5000 < 4294967296 ∧ C8Prop 1 :=
  ⟨by decide, C8_timers 1 (by decide)⟩

/-- C9 (confirmed): the dog-to-fault-light table has exactly four
entries and every index below four is in bounds for Option-returning
indexing. -/
theorem C9_bounds :
    ∀ i, i < 4 →
      (dogErrorLigths.get? i).isSome = true ∧ dogErrorLigths.length = 4 := by decide

/-- C9 witness. -/
theorem C9_bounds_witness :
    (2 : Nat) < 4 ∧
      ((dogErrorLigths.get? 2).isSome = true ∧ dogErrorLigths.length = 4) :=
  ⟨by decide, C9_bounds 2 (by decide)⟩

/-- C10 (confirmed): slot 6 is written only by the arming step — the
tick, ResetLights, DeleteSchedules and ToggleFaultLight preserve it,
the busy scan never reads it, and no drained slot maps to YELLOW3. -/
theorem C10_slot6 (s : LCState) (now : Nat) (race : RaceStates)
    (d : Nat) (st : LightStates) (i : Nat) (h : i < 6) :
    C10Prop s now race d st i := by
  have hd6on : ∀ t : LCState, schedOn (drain t now) 6 = schedOn t 6 := by
    intro t
    rw [drain_eq]
    simp [schedOn_drainSlot_ne]
  have hd6out : ∀ t : LCState, schedOut (drain t now) 6 = schedOut t 6 := by
    intro t
    rw [drain_eq]
    simp [schedOut_drainSlot_ne]
  refine ⟨?_, ?_, ?_, ?_, ?_, ?_, ?_, ?_, ?_, ?_⟩
  · intro hno
    rw [Main_state_schedOn, Main_state_schedOut, hd6on, hd6out]
    by_cases hS : s.byOverallState = .STARTING
    · have hA : s.bStartSequenceStarted = true := by
        cases hb : s.bStartSequenceStarted
        · exact absurd ⟨hS, hb⟩ hno
        · rfl
      unfold HandleStartSequence
      rw [if_pos hS]
      simp [hA, schedOn_ite, schedOut_ite, schedOn_setDone, schedOut_setDone]
    · rw [handle_skip _ _ _ hS]
      exact ⟨rfl, rfl⟩
  · rintro ⟨hS, hA⟩
    rw [Main_state_schedOn, Main_state_schedOut, hd6on, hd6out]
    unfold HandleStartSequence
    rw [if_pos hS]
    simp [hA, schedOn_ite, schedOut_ite, schedOn_setDone, schedOut_setDone,
      schedOn_setStarted, schedOut_setStarted, schedOn_setOut, schedOut_setOn,
      schedOn_setOn_ne, schedOut_setOut_ne, schedOn_setOn_self, schedOut_setOut_self]
  · simp [ResetLights, DeleteSchedules, setOn, setOut, schedOn]
  · simp [ResetLights, DeleteSchedules, setOn, setOut, schedOut]
  · simp [DeleteSchedules, setOn, setOut, schedOn]
  · simp [DeleteSchedules, setOn, setOut, schedOut]
  · unfold ToggleFaultLight
    simp [schedOn_ite, schedOn_setMask, schedOn_setOut, schedOn_setOn_ne]
  · unfold ToggleFaultLight
    simp [schedOut_ite, schedOut_setMask, schedOut_setOn, schedOut_setOut_ne]
  · intro v w
    simp [startSequenceBusy, schedOn, schedOut]
  · interval_cases i <;> decide

/-- C10 witness. -/
theorem C10_slot6_witness :
    (0 : Nat) < 6 ∧ C10Prop initState 5 .NOT_STARTING 1 .ON 0 :=
  ⟨by decide, C10_slot6 initState 5 .NOT_STARTING 1 .ON 0 (by decide)⟩

end FlyballETS
